import Mathlib

/-!
# dwarf2pdb: IR, correspondence maps, readers, translators, equality oracle

A shallow embedding of the C++ sources under `src/src` and a verification of the
properties stated for them.

Modelling conventions
* `std::unordered_map<K, V>` with integer keys is `UMap V`: an association list that
  `assign` (the C++ `m[k] = v`) keeps free of duplicate keys.
* A nullable pointer (`T*`, `std::unique_ptr<T>`) is `Option T`; the non-owning `parent`
  back-pointer of a tree node is `Option Nat` (an opaque handle, `none` for `nullptr`).
* Unsigned machine integers are `Nat`; the only arithmetic in the sources is
  `nextID++` on a `std::uint32_t`, embedded with an explicit `% 2 ^ 32`.
* A function that mutates `IRTypeTable&` / `IRMaps&` returns an `Outcome`: its return
  value together with the table and maps it leaves behind.
* Writes to `std::cout` are not part of the model.
-/

namespace Dwarf2Pdb

/-! ## Unordered maps -/

/-- Model of `std::unordered_map<integer, V>`. -/
structure UMap (V : Type) where
  entries : List (Nat × V) := []
deriving DecidableEq, Repr

namespace UMap

variable {V : Type}

/-- Lookup in an entry list: the first entry stored under `k`. -/
def findIn : List (Nat × V) → Nat → Option V
  | [], _ => none
  | (k', v) :: rest, k => if k' = k then some v else findIn rest k

/-- Insert-or-overwrite in an entry list. -/
def assignIn : List (Nat × V) → Nat → V → List (Nat × V)
  | [], k, v => [(k, v)]
  | (k', v') :: rest, k, v =>
    if k' = k then (k, v) :: rest else (k', v') :: assignIn rest k v

/-- The C++ `m.find(k)`: `none` stands for `m.end()`. -/
def find (m : UMap V) (k : Nat) : Option V := findIn m.entries k

/-- The C++ `m[k] = v`: overwrite the entry of `k` or add one. -/
def assign (m : UMap V) (k : Nat) (v : V) : UMap V := ⟨assignIn m.entries k v⟩

/-- The C++ `m.size()`. -/
def size (m : UMap V) : Nat := m.entries.length

/-- The keys stored in the map. -/
def keys (m : UMap V) : List Nat := m.entries.map Prod.fst

end UMap

/-! ## IR data model (`ir/IRNode.h`) -/

/-- Alias `IRTypeID = std::uint32_t`. Arithmetic proofs about ids start with
`unfold IRTypeID at *`, which lets `omega` see the underlying `Nat`. -/
abbrev IRTypeID := Nat

inductive IRTypeKind where
  | StructOrUnion
  | Array
  | Pointer
  | Unknown
deriving DecidableEq, Repr

structure IRField where
  name : String := ""
  type : IRTypeID := 0
  byteOffset : Nat := 0
  bitOffset : Nat := 0
  bitSize : Nat := 0
  isAnonymousArm : Bool := false
deriving DecidableEq, Repr

structure IRArrayDim where
  lowerBound : Int := 0
  count : Nat := 0
deriving DecidableEq, Repr

structure IRType where
  id : IRTypeID := 0
  kind : IRTypeKind := IRTypeKind.Unknown
  name : String := ""
  isForwardDecl : Bool := false
  isUnion : Bool := false
  sizeBytes : Nat := 0
  fields : List IRField := []
  dims : List IRArrayDim := []
  elementType : IRTypeID := 0
  indexType : IRTypeID := 0
  pointeeType : IRTypeID := 0
  ptrSizeBytes : Nat := 0
deriving DecidableEq, Repr

inductive IRSymbolKind where
  | Variable
  | Function
  | Parameter
deriving DecidableEq, Repr

structure IRSymbol where
  name : String := ""
  kind : IRSymbolKind := IRSymbolKind.Variable
  type : IRTypeID := 0
deriving DecidableEq, Repr

inductive IRScopeKind where
  | CompileUnit
  | Namespace
  | Function
  | Block
  | FileStatic
deriving DecidableEq, Repr

/-- Lexical scope. `children` holds `std::unique_ptr<IRScope>` elements. -/
structure IRScope where
  kind : IRScopeKind := IRScopeKind.CompileUnit
  name : String := ""
  parent : Option Nat := none
  children : List (Option IRScope)
  declaredTypes : List IRTypeID := []
  declaredSymbols : List IRSymbol := []

/-! ## Correspondence maps (`ir/IRMaps.h`) -/

structure IRMaps where
  dwarfDieToIR : UMap IRTypeID := {}
  irToDwarfDie : UMap Nat := {}
  pdbTIToIR : UMap IRTypeID := {}
  irToPdbTI : UMap Nat := {}
deriving DecidableEq, Repr

/-! ## Type table (`ir/IRTypeTable.h`, `ir/IRTypeTable.cpp`) -/

structure IRTypeTable where
  nextID : IRTypeID := 1
  types : UMap IRType := {}
deriving DecidableEq, Repr

namespace IRTypeTable

/-- `IRTypeTable::createType`: the returned `IRType` is the value the returned raw pointer
points at; `nextID++` is a 32-bit increment. -/
def createType (tbl : IRTypeTable) (k : IRTypeKind) : IRType × IRTypeTable :=
  let id := tbl.nextID
  let t : IRType := { id := id, kind := k }
  (t, { nextID := (tbl.nextID + 1) % 2 ^ 32, types := tbl.types.assign id t })

/-- `IRTypeTable::lookup`: `none` is the `nullptr` returned for an absent id. -/
def lookup (tbl : IRTypeTable) (id : IRTypeID) : Option IRType := tbl.types.find id

/-- A write through the raw `IRType*` that `createType` returned: the table entry stored
under `id` becomes `t`. -/
def store (tbl : IRTypeTable) (id : IRTypeID) (t : IRType) : IRTypeTable :=
  { tbl with types := tbl.types.assign id t }

end IRTypeTable

/-! ## Native node models (`dwarf/DwarfNode.h`, `pdb/PdbNode.h`) -/

/-- One DWARF DIE. `children` holds `std::unique_ptr<DwarfNode>` elements. -/
structure DwarfNode where
  tag : Nat := 0
  attrsStr : List (Nat × String) := []
  attrsU64 : List (Nat × Nat) := []
  parent : Option Nat := none
  children : List (Option DwarfNode)
  originalDieOffset : Nat := 0

/-- One CodeView record. `children` holds `std::unique_ptr<PdbNode>` elements. -/
structure PdbNode where
  leafKind : Nat := 0
  payload : List Nat := []
  parent : Option Nat := none
  children : List (Option PdbNode)
  typeIndexOrSymOffset : Nat := 0
  prettyName : String := ""
  uniqueName : String := ""

/-- What a call leaves behind: its return value, the type table and the maps. -/
structure Outcome (α : Type) where
  ret : α
  typeTable : IRTypeTable
  maps : IRMaps

/-! ## Readers (`dwarf/DwarfReader.cpp`, `pdb/PdbReader.cpp`) -/

namespace DwarfReader

/-- `DwarfReader::readObject` (a stub in the sources: one CU scope, one dummy struct). -/
def readObject (path : String) (typeTable : IRTypeTable) (maps : IRMaps) :
    Outcome (Option IRScope) :=
  let root : IRScope := { kind := IRScopeKind.CompileUnit, name := path, children := [] }
  let (t, typeTable) := typeTable.createType IRTypeKind.StructOrUnion
  let t := { t with name := "DummyFromDwarf" }
  let t := { t with isUnion := false }
  let t := { t with sizeBytes := 16 }
  let t := { t with fields := t.fields ++ [{ name := "fieldA", type := t.id, byteOffset := 0,
                                             bitOffset := 0, bitSize := 0,
                                             isAnonymousArm := false }] }
  let typeTable := typeTable.store t.id t
  let root := { root with declaredTypes := root.declaredTypes ++ [t.id] }
  let varSym : IRSymbol := { name := "var_from_dwarf", kind := IRSymbolKind.Variable,
                             type := t.id }
  let root := { root with declaredSymbols := root.declaredSymbols ++ [varSym] }
  let maps := { maps with dwarfDieToIR := maps.dwarfDieToIR.assign 0x1234 t.id }
  let maps := { maps with irToDwarfDie := maps.irToDwarfDie.assign t.id 0x1234 }
  { ret := some root, typeTable := typeTable, maps := maps }

/-- `DwarfReader::readFromModel`. -/
def readFromModel (model : DwarfNode) (typeTable : IRTypeTable) (maps : IRMaps) :
    Outcome (Option IRScope) :=
  let root : IRScope := { kind := IRScopeKind.CompileUnit, name := "fromModel",
                          children := [] }
  let (t, typeTable) := typeTable.createType IRTypeKind.StructOrUnion
  let t := { t with isUnion := false }
  let t := { t with sizeBytes := 16 }
  let t := { t with name := match model.attrsStr with
                            | [] => "AnonFromDwarfNode"
                            | a :: _ => a.2 }
  let f : IRField := { name := "self", type := t.id, byteOffset := 0 }
  let t := { t with fields := t.fields ++ [f] }
  let typeTable := typeTable.store t.id t
  let root := { root with declaredTypes := root.declaredTypes ++ [t.id] }
  let s : IRSymbol := { name := "symFromDwarf", kind := IRSymbolKind.Variable, type := t.id }
  let root := { root with declaredSymbols := root.declaredSymbols ++ [s] }
  let maps := { maps with dwarfDieToIR := maps.dwarfDieToIR.assign model.originalDieOffset t.id }
  let maps := { maps with irToDwarfDie := maps.irToDwarfDie.assign t.id model.originalDieOffset }
  { ret := some root, typeTable := typeTable, maps := maps }

end DwarfReader

namespace PdbReader

/-- `PdbReader::readPdb` (a stub in the sources: one CU scope, one dummy union). -/
def readPdb (path : String) (typeTable : IRTypeTable) (maps : IRMaps) :
    Outcome (Option IRScope) :=
  let root : IRScope := { kind := IRScopeKind.CompileUnit, name := path, children := [] }
  let (t, typeTable) := typeTable.createType IRTypeKind.StructOrUnion
  let t := { t with name := "DummyFromPdb" }
  let t := { t with isUnion := true }
  let t := { t with sizeBytes := 8 }
  let f : IRField := { name := "alt0", type := t.id, byteOffset := 0 }
  let t := { t with fields := t.fields ++ [f] }
  let typeTable := typeTable.store t.id t
  let root := { root with declaredTypes := root.declaredTypes ++ [t.id] }
  let sym : IRSymbol := { name := "var_from_pdb", kind := IRSymbolKind.Variable, type := t.id }
  let root := { root with declaredSymbols := root.declaredSymbols ++ [sym] }
  let maps := { maps with pdbTIToIR := maps.pdbTIToIR.assign 0x1000 t.id }
  let maps := { maps with irToPdbTI := maps.irToPdbTI.assign t.id 0x1000 }
  { ret := some root, typeTable := typeTable, maps := maps }

/-- `PdbReader::readFromModel`. -/
def readFromModel (model : PdbNode) (typeTable : IRTypeTable) (maps : IRMaps) :
    Outcome (Option IRScope) :=
  let root : IRScope := { kind := IRScopeKind.CompileUnit, name := "fromPdbModel",
                          children := [] }
  let (t, typeTable) := typeTable.createType IRTypeKind.StructOrUnion
  let t := { t with isUnion := true }
  let t := { t with sizeBytes := 8 }
  let t := { t with name := if model.prettyName = "" then "AnonFromPdbNode"
                            else model.prettyName }
  let f : IRField := { name := "alt0", type := t.id, byteOffset := 0 }
  let t := { t with fields := t.fields ++ [f] }
  let typeTable := typeTable.store t.id t
  let root := { root with declaredTypes := root.declaredTypes ++ [t.id] }
  let s : IRSymbol := { name := "symFromPdb", kind := IRSymbolKind.Variable, type := t.id }
  let root := { root with declaredSymbols := root.declaredSymbols ++ [s] }
  let maps := { maps with pdbTIToIR := maps.pdbTIToIR.assign model.typeIndexOrSymOffset t.id }
  let maps := { maps with irToPdbTI := maps.irToPdbTI.assign t.id model.typeIndexOrSymOffset }
  { ret := some root, typeTable := typeTable, maps := maps }

end PdbReader

/-! ## Translators (`pipeline/DwarfToPdb.cpp`, `pipeline/PdbToDwarf.cpp`) -/

namespace DwarfToPdb

/-- `DwarfToPdb::emitTypesAsPdb`: the body casts its three arguments to `void` and
returns; the walk over the type table is a `TODO` comment. -/
def emitTypesAsPdb (typeTable : IRTypeTable) (maps : IRMaps) (pdbRoot : PdbNode) :
    IRTypeTable × IRMaps × PdbNode :=
  (typeTable, maps, pdbRoot)

/-- `DwarfToPdb::translate`; `rootScope` is the possibly-null `IRScope*`. -/
def translate (rootScope : Option IRScope) (typeTable : IRTypeTable) (maps : IRMaps) :
    Outcome (Option PdbNode) :=
  let _ := rootScope
  let pdbRoot : PdbNode := { children := [] }
  let pdbRoot := { pdbRoot with leafKind := 0x1234 }
  let pdbRoot := { pdbRoot with prettyName := "PdbRootFromDwarf" }
  let (typeTable, maps, pdbRoot) := emitTypesAsPdb typeTable maps pdbRoot
  { ret := some pdbRoot, typeTable := typeTable, maps := maps }

end DwarfToPdb

namespace PdbToDwarf

/-- `PdbToDwarf::emitTypesAsDwarf`: the body casts its three arguments to `void` and
returns; the walk over the type table is a `TODO` comment. -/
def emitTypesAsDwarf (typeTable : IRTypeTable) (maps : IRMaps) (dwarfCU : DwarfNode) :
    IRTypeTable × IRMaps × DwarfNode :=
  (typeTable, maps, dwarfCU)

/-- `PdbToDwarf::translate`; `rootScope` is the possibly-null `IRScope*`. -/
def translate (rootScope : Option IRScope) (typeTable : IRTypeTable) (maps : IRMaps) :
    Outcome (Option DwarfNode) :=
  let _ := rootScope
  let cuNode : DwarfNode := { children := [] }
  let cuNode := { cuNode with tag := 0x11 }
  let cuNode := { cuNode with originalDieOffset := 0x2000 }
  let (typeTable, maps, cuNode) := emitTypesAsDwarf typeTable maps cuNode
  { ret := some cuNode, typeTable := typeTable, maps := maps }

end PdbToDwarf

/-! ## Structural equality oracle (`util/Compare.cpp`) -/

/-- The `for` loop of `CompareVec`, run on two vectors already known to have the same
length: stop with `false` at the first index where `cmp` fails. -/
def CompareVecLoop {T : Type} (cmp : T → T → Bool) : List T → List T → Bool
  | a :: as, b :: bs => if !cmp a b then false else CompareVecLoop cmp as bs
  | _, _ => true

/-- `CompareVec`. -/
def CompareVec {T : Type} (A B : List T) (cmp : T → T → Bool) : Bool :=
  if A.length != B.length then false else CompareVecLoop cmp A B

/-- `EqualIRType`; `none` is a null pointer, and two nulls compare equal. -/
def EqualIRType : Option IRType → Option IRType → Bool
  | some a, some b =>
    if a.kind != b.kind then false
    else if a.name != b.name then false
    else if a.isForwardDecl != b.isForwardDecl then false
    else if a.isUnion != b.isUnion then false
    else if a.sizeBytes != b.sizeBytes then false
    else if a.pointeeType != b.pointeeType then false
    else if a.ptrSizeBytes != b.ptrSizeBytes then false
    else if a.elementType != b.elementType then false
    else if a.indexType != b.indexType then false
    else if !CompareVec a.dims b.dims
        (fun x y => x.lowerBound == y.lowerBound && x.count == y.count) then false
    else if !CompareVec a.fields b.fields
        (fun x y => x.name == y.name && x.type == y.type && x.byteOffset == y.byteOffset
          && x.bitOffset == y.bitOffset && x.bitSize == y.bitSize
          && x.isAnonymousArm == y.isAnonymousArm) then false
    else true
  | none, none => true
  | _, _ => false

/-- `EqualIRSymbol`. -/
def EqualIRSymbol (a b : IRSymbol) : Bool :=
  a.name == b.name && a.kind == b.kind && a.type == b.type

/-- The `declaredTypes` loop of `EqualIRScope`, run after the size check. -/
def declaredTypesLoop : List IRTypeID → List IRTypeID → Bool
  | a :: as, b :: bs => if a != b then false else declaredTypesLoop as bs
  | _, _ => true

mutual
/-- `EqualIRScope` past its null check: both pointers are non-null. -/
def EqualIRScopeBody : IRScope → IRScope → Bool
  | ⟨ka, na, _, ca, ta, sa⟩, ⟨kb, nb, _, cb, tb, sb⟩ =>
    if ka != kb then false
    else if na != nb then false
    else if ta.length != tb.length then false
    else if !declaredTypesLoop ta tb then false
    else if !CompareVec sa sb EqualIRSymbol then false
    else if ca.length != cb.length then false
    else EqualIRScopeChildren ca cb
/-- `EqualIRScope`; `none` is a null pointer: `if (!a || !b) return a == b;`. -/
def EqualIRScope : Option IRScope → Option IRScope → Bool
  | some a, some b => EqualIRScopeBody a b
  | none, none => true
  | _, _ => false
/-- The children loop of `EqualIRScope`, run after the size check. -/
def EqualIRScopeChildren : List (Option IRScope) → List (Option IRScope) → Bool
  | a :: as, b :: bs => if !EqualIRScope a b then false else EqualIRScopeChildren as bs
  | _, _ => true
end

/-- The attribute loops of `EqualDwarfNode`, run after the size checks: compare `first`,
then `second`, index by index. -/
def attrsLoop {V : Type} [BEq V] : List (Nat × V) → List (Nat × V) → Bool
  | a :: as, b :: bs =>
    if a.1 != b.1 then false else if a.2 != b.2 then false else attrsLoop as bs
  | _, _ => true

mutual
/-- `EqualDwarfNode` past its null check: both pointers are non-null. -/
def EqualDwarfNodeBody : DwarfNode → DwarfNode → Bool
  | ⟨ta, sa, ua, _, ca, _⟩, ⟨tb, sb, ub, _, cb, _⟩ =>
    if ta != tb then false
    else if sa.length != sb.length then false
    else if ua.length != ub.length then false
    else if !attrsLoop sa sb then false
    else if !attrsLoop ua ub then false
    else if ca.length != cb.length then false
    else EqualDwarfNodeChildren ca cb
/-- `EqualDwarfNode`; `none` is a null pointer: `if (!a || !b) return a == b;`. -/
def EqualDwarfNode : Option DwarfNode → Option DwarfNode → Bool
  | some a, some b => EqualDwarfNodeBody a b
  | none, none => true
  | _, _ => false
/-- The children loop of `EqualDwarfNode`, run after the size check. -/
def EqualDwarfNodeChildren : List (Option DwarfNode) → List (Option DwarfNode) → Bool
  | a :: as, b :: bs => if !EqualDwarfNode a b then false else EqualDwarfNodeChildren as bs
  | _, _ => true
end

mutual
/-- `EqualPdbNode` past its null check: both pointers are non-null. The payload bytes and
the type index are not read. -/
def EqualPdbNodeBody : PdbNode → PdbNode → Bool
  | ⟨ka, _, _, ca, _, pa, ua⟩, ⟨kb, _, _, cb, _, pb, ub⟩ =>
    if ka != kb then false
    else if pa != pb then false
    else if ua != ub then false
    else if ca.length != cb.length then false
    else EqualPdbNodeChildren ca cb
/-- `EqualPdbNode`; `none` is a null pointer: `if (!a || !b) return a == b;`. -/
def EqualPdbNode : Option PdbNode → Option PdbNode → Bool
  | some a, some b => EqualPdbNodeBody a b
  | none, none => true
  | _, _ => false
/-- The children loop of `EqualPdbNode`, run after the size check. -/
def EqualPdbNodeChildren : List (Option PdbNode) → List (Option PdbNode) → Bool
  | a :: as, b :: bs => if !EqualPdbNode a b then false else EqualPdbNodeChildren as bs
  | _, _ => true
end

/-! ## Pipelines and sessions built from the calls above -/

/-- The format-A node of the Widget scenario: a compile unit (`tag = 0x11`) whose only
attribute is the string attribute `(0x03, "Widget")`. -/
def widgetCU : DwarfNode :=
  { tag := 0x11, attrsStr := [(0x03, "Widget")], children := [] }

/-- The four calls of the round trip, each reader on a fresh type table and fresh maps:
`DwarfReader::readFromModel`, `DwarfToPdb::translate`, `PdbReader::readFromModel`,
`PdbToDwarf::translate`. A null tree handed to the second reader ends the pipeline. -/
def roundTripDwarf (d : DwarfNode) : Option DwarfNode :=
  let r1 := DwarfReader.readFromModel d {} {}
  let p := DwarfToPdb.translate r1.ret r1.typeTable r1.maps
  match p.ret with
  | none => none
  | some pdbModel =>
    let r2 := PdbReader.readFromModel pdbModel {} {}
    (PdbToDwarf.translate r2.ret r2.typeTable r2.maps).ret

/-- Number of nodes below the root of a translated tree (`0` for a null tree): the nodes
a translator emitted for types. -/
def emittedTypeNodes {N : Type} (children : N → List (Option N)) : Option N → Nat
  | none => 0
  | some root => (children root).length

/-- One call of a session: a reader call or a translate call. -/
inductive SessionOp where
  | dwarfReadObject (path : String)
  | dwarfReadFromModel (model : DwarfNode)
  | pdbReadPdb (path : String)
  | pdbReadFromModel (model : PdbNode)
  | dwarfToPdbTranslate (rootScope : Option IRScope)
  | pdbToDwarfTranslate (rootScope : Option IRScope)

/-- The state that the calls of one session share: one type table and one `IRMaps`. -/
structure Session where
  typeTable : IRTypeTable := {}
  maps : IRMaps := {}

namespace Session

/-- Run one call on the shared table and maps. -/
def step (s : Session) : SessionOp → Session
  | .dwarfReadObject path =>
    let o := DwarfReader.readObject path s.typeTable s.maps
    { typeTable := o.typeTable, maps := o.maps }
  | .dwarfReadFromModel model =>
    let o := DwarfReader.readFromModel model s.typeTable s.maps
    { typeTable := o.typeTable, maps := o.maps }
  | .pdbReadPdb path =>
    let o := PdbReader.readPdb path s.typeTable s.maps
    { typeTable := o.typeTable, maps := o.maps }
  | .pdbReadFromModel model =>
    let o := PdbReader.readFromModel model s.typeTable s.maps
    { typeTable := o.typeTable, maps := o.maps }
  | .dwarfToPdbTranslate rootScope =>
    let o := DwarfToPdb.translate rootScope s.typeTable s.maps
    { typeTable := o.typeTable, maps := o.maps }
  | .pdbToDwarfTranslate rootScope =>
    let o := PdbToDwarf.translate rootScope s.typeTable s.maps
    { typeTable := o.typeTable, maps := o.maps }

/-- Run a sequence of calls, first call first. -/
def run (s : Session) : List SessionOp → Session
  | [] => s
  | op :: ops => (s.step op).run ops

/-- The native id a reader call consumes is not yet a key of its format's native-id map
(`0x1234` for `readObject`, `0x1000` for `readPdb`, the model's own id for
`readFromModel`); a translate call consumes none. -/
def consumesNewNativeId (s : Session) : SessionOp → Bool
  | .dwarfReadObject _ => (s.maps.dwarfDieToIR.find 0x1234).isNone
  | .dwarfReadFromModel model => (s.maps.dwarfDieToIR.find model.originalDieOffset).isNone
  | .pdbReadPdb _ => (s.maps.pdbTIToIR.find 0x1000).isNone
  | .pdbReadFromModel model => (s.maps.pdbTIToIR.find model.typeIndexOrSymOffset).isNone
  | .dwarfToPdbTranslate _ => true
  | .pdbToDwarfTranslate _ => true

/-- A reader call (each creates one type) as opposed to a translate call. -/
def isReader : SessionOp → Bool
  | .dwarfToPdbTranslate _ => false
  | .pdbToDwarfTranslate _ => false
  | _ => true

/-- Number of reader calls in a sequence of calls. -/
def readerCalls : List SessionOp → Nat
  | [] => 0
  | op :: ops => (if isReader op then 1 else 0) + readerCalls ops

/-- Every reader call of the sequence, at the moment it runs, consumes a native id that
is not yet recorded for its format. -/
def nativeIdsDistinct (s : Session) : List SessionOp → Bool
  | [] => true
  | op :: ops => s.consumesNewNativeId op && (s.step op).nativeIdsDistinct ops

end Session

/-- Two maps are mutually inverse: `f[k] = v` iff `g[v] = k`. -/
def MutuallyInverse (f g : UMap Nat) : Prop :=
  ∀ k v, f.find k = some v ↔ g.find v = some k

/-- Both formats' map pairs are mutually inverse. -/
def IRMaps.Bijective (m : IRMaps) : Prop :=
  MutuallyInverse m.dwarfDieToIR m.irToDwarfDie ∧ MutuallyInverse m.pdbTIToIR m.irToPdbTI

/-- A compile-unit DIE with no attributes, no children and DIE offset `0`. -/
def emptyCU : DwarfNode := { tag := 0x11, children := [] }

/-- Invariant of a session that started with `nextID = n0` and has made `c` reader calls
since: the counter stands at `n0 + c` (mod `2 ^ 32`), the maps are bijective, and none of
the ids that the table hands out from now until the counter has gone once around is a key
of an IR-keyed map. -/
structure Session.Inv (s : Session) (n0 c : Nat) : Prop where
  next : s.typeTable.nextID = (n0 + c) % 2 ^ 32
  bij : s.maps.Bijective
  dwarfUnused : ∀ j, c ≤ j → j < 2 ^ 32 → s.maps.irToDwarfDie.find ((n0 + j) % 2 ^ 32) = none
  pdbUnused : ∀ j, c ≤ j → j < 2 ^ 32 → s.maps.irToPdbTI.find ((n0 + j) % 2 ^ 32) = none

/-- The placeholder of the specification, in its words: a type that is named, zero-sized
and of kind `Unknown`. -/
def IRType.isPlaceholder (t : IRType) : Bool :=
  t.name != "" && t.sizeBytes == 0 && t.kind == IRTypeKind.Unknown

/-- A format-A node that is not a compile unit (`tag = 0x2e`) and has no attribute. -/
def unnamedSubprogramDie : DwarfNode := { tag := 0x2e, children := [] }

/-- A sequence of `createType` calls on one table, one call per listed kind, first call
first: the types returned, in call order, and the table left behind. -/
def IRTypeTable.createTypes (tbl : IRTypeTable) : List IRTypeKind → List IRType × IRTypeTable
  | [] => ([], tbl)
  | k :: ks =>
    ((tbl.createType k).1 :: ((tbl.createType k).2.createTypes ks).1,
     ((tbl.createType k).2.createTypes ks).2)

/-- The ids returned by a sequence of `createType` calls, in call order. -/
def IRTypeTable.createdIds (tbl : IRTypeTable) (kinds : List IRTypeKind) : List IRTypeID :=
  (tbl.createTypes kinds).1.map IRType.id

mutual
/-- The same format-A tree with every `parent` back-pointer and every
`originalDieOffset` reset, at every depth. -/
def DwarfNode.scrub : DwarfNode → DwarfNode
  | ⟨tag, attrsStr, attrsU64, _, children, _⟩ =>
    ⟨tag, attrsStr, attrsU64, none, DwarfNode.scrubChildren children, 0⟩
/-- `DwarfNode.scrub` under a nullable pointer. -/
def DwarfNode.scrubPtr : Option DwarfNode → Option DwarfNode
  | none => none
  | some a => some (DwarfNode.scrub a)
/-- `DwarfNode.scrub` on a list of children. -/
def DwarfNode.scrubChildren : List (Option DwarfNode) → List (Option DwarfNode)
  | [] => []
  | a :: as => DwarfNode.scrubPtr a :: DwarfNode.scrubChildren as
end

mutual
/-- The same format-B tree with every payload, every type index and every `parent`
back-pointer reset, at every depth. -/
def PdbNode.scrub : PdbNode → PdbNode
  | ⟨leafKind, _, _, children, _, prettyName, uniqueName⟩ =>
    ⟨leafKind, [], none, PdbNode.scrubChildren children, 0, prettyName, uniqueName⟩
/-- `PdbNode.scrub` under a nullable pointer. -/
def PdbNode.scrubPtr : Option PdbNode → Option PdbNode
  | none => none
  | some a => some (PdbNode.scrub a)
/-- `PdbNode.scrub` on a list of children. -/
def PdbNode.scrubChildren : List (Option PdbNode) → List (Option PdbNode)
  | [] => []
  | a :: as => PdbNode.scrubPtr a :: PdbNode.scrubChildren as
end

mutual
/-- The same scope tree with every `parent` back-pointer reset, at every depth. -/
def IRScope.scrub : IRScope → IRScope
  | ⟨kind, name, _, children, declaredTypes, declaredSymbols⟩ =>
    ⟨kind, name, none, IRScope.scrubChildren children, declaredTypes, declaredSymbols⟩
/-- `IRScope.scrub` under a nullable pointer. -/
def IRScope.scrubPtr : Option IRScope → Option IRScope
  | none => none
  | some a => some (IRScope.scrub a)
/-- `IRScope.scrub` on a list of children. -/
def IRScope.scrubChildren : List (Option IRScope) → List (Option IRScope)
  | [] => []
  | a :: as => IRScope.scrubPtr a :: IRScope.scrubChildren as
end

/-- A format-A tree: a compile unit with one structure-type child. -/
def dwarfSample : DwarfNode :=
  { tag := 0x11, attrsStr := [(0x03, "cu")],
    children := [some { tag := 0x13, attrsU64 := [(0x0b, 16)], children := [] }] }

/-- `dwarfSample` with other DIE offsets and parent handles at both levels. -/
def dwarfSampleA : DwarfNode :=
  { tag := 0x11, attrsStr := [(0x03, "cu")], originalDieOffset := 9,
    children := [some { tag := 0x13, attrsU64 := [(0x0b, 16)], parent := some 4,
                        originalDieOffset := 7, children := [] }] }

/-- `dwarfSample` with yet other DIE offsets and parent handles. -/
def dwarfSampleB : DwarfNode :=
  { tag := 0x11, attrsStr := [(0x03, "cu")], parent := some 1,
    children := [some { tag := 0x13, attrsU64 := [(0x0b, 16)], originalDieOffset := 0x40,
                        children := [] }] }

/-- A format-B tree: a root with one child record. -/
def pdbSample : PdbNode :=
  { leafKind := 0x1234, prettyName := "Root",
    children := [some { leafKind := 0x1505, prettyName := "Widget", uniqueName := ".?AUWidget@@",
                        children := [] }] }

/-- `pdbSample` with other payload bytes and type indices at both levels. -/
def pdbSampleA : PdbNode :=
  { leafKind := 0x1234, payload := [1, 2], typeIndexOrSymOffset := 0x1000, prettyName := "Root",
    children := [some { leafKind := 0x1505, payload := [0xff], typeIndexOrSymOffset := 0x1001,
                        prettyName := "Widget", uniqueName := ".?AUWidget@@",
                        children := [] }] }

/-- `pdbSample` with yet other payload bytes and type indices. -/
def pdbSampleB : PdbNode :=
  { leafKind := 0x1234, prettyName := "Root",
    children := [some { leafKind := 0x1505, payload := [7, 7, 7], typeIndexOrSymOffset := 3,
                        prettyName := "Widget", uniqueName := ".?AUWidget@@",
                        children := [] }] }

/-- A scope tree: a compile unit with one child namespace. -/
def scopeSample : IRScope :=
  { name := "cu", declaredTypes := [1],
    declaredSymbols := [{ name := "v", kind := IRSymbolKind.Variable, type := 1 }],
    children := [some { kind := IRScopeKind.Namespace, name := "ns", children := [] }] }

/-- `scopeSample` with other `parent` handles at both levels. -/
def scopeSampleA : IRScope :=
  { name := "cu", parent := some 3, declaredTypes := [1],
    declaredSymbols := [{ name := "v", kind := IRSymbolKind.Variable, type := 1 }],
    children := [some { kind := IRScopeKind.Namespace, name := "ns", parent := some 8,
                        children := [] }] }

/-- `scopeSample` with yet another `parent` handle. -/
def scopeSampleB : IRScope :=
  { name := "cu", declaredTypes := [1],
    declaredSymbols := [{ name := "v", kind := IRSymbolKind.Variable, type := 1 }],
    children := [some { kind := IRScopeKind.Namespace, name := "ns", parent := some 5,
                        children := [] }] }

/-- A `PdbNode` with a pretty name. -/
def namedPdbNode : PdbNode :=
  { leafKind := 0x1505, prettyName := "Widget", typeIndexOrSymOffset := 0x1000, children := [] }

/-- One call on the way to a table state: a direct `createType` call, or a call of a
session (a reader or a translator). -/
inductive BuildOp where
  | createType (k : IRTypeKind)
  | call (op : SessionOp)

/-- Run one call on the shared table and maps. -/
def Session.buildStep (s : Session) : BuildOp → Session
  | .createType k => { s with typeTable := (s.typeTable.createType k).2 }
  | .call op => s.step op

/-- Run a sequence of calls, first call first. -/
def Session.build (s : Session) : List BuildOp → Session
  | [] => s
  | op :: ops => (s.buildStep op).build ops

/-- Number of types a call creates: one for `createType` and for each reader. -/
def BuildOp.creates : BuildOp → Nat
  | .createType _ => 1
  | .call op => if Session.isReader op then 1 else 0

/-- Number of types a sequence of calls creates. -/
def Session.typesCreated : List BuildOp → Nat
  | [] => 0
  | op :: ops => op.creates + Session.typesCreated ops

/-- The type ids that the outcome of a read mentions: the `declaredTypes` of the returned
scope, the type of each of its symbols, and the field types of every type the scope
declares (looked up in the table the read left). -/
def Outcome.mentionedIds (o : Outcome (Option IRScope)) : List IRTypeID :=
  match o.ret with
  | none => []
  | some root =>
    root.declaredTypes ++ root.declaredSymbols.map IRSymbol.type
      ++ root.declaredTypes.flatMap (fun id =>
          match o.typeTable.lookup id with
          | none => []
          | some t => t.fields.map IRField.type)

/-- A short sequence of calls: a `createType`, two reads and a translation. -/
def sampleBuild : List BuildOp :=
  [BuildOp.createType IRTypeKind.Array, BuildOp.call (SessionOp.dwarfReadFromModel emptyCU),
    BuildOp.call (SessionOp.pdbReadPdb "a.pdb"),
    BuildOp.call (SessionOp.dwarfToPdbTranslate none)]

/-- `IRTypeTable::lookup` as a call on the table object: the pointer it returns together
with the table the call leaves. The body runs `types.find(id)` and nothing else; `find`
inserts nothing (unlike `types[id]`), so the table handed back is the one given. -/
def IRTypeTable.lookupCall (tbl : IRTypeTable) (id : IRTypeID) :
    Option IRType × IRTypeTable :=
  (tbl.types.find id, tbl)

/-! ## What each call leaves behind -/

namespace DwarfToPdb

theorem d2p_translate_ret (rootScope : Option IRScope) (typeTable : IRTypeTable) (maps : IRMaps) :
    (translate rootScope typeTable maps).ret
      = some { leafKind := 0x1234, prettyName := "PdbRootFromDwarf", children := [] } := rfl

theorem d2p_translate_maps (rootScope : Option IRScope) (typeTable : IRTypeTable) (maps : IRMaps) :
    (translate rootScope typeTable maps).maps = maps := rfl

theorem d2p_translate_typeTable (rootScope : Option IRScope) (typeTable : IRTypeTable)
    (maps : IRMaps) : (translate rootScope typeTable maps).typeTable = typeTable := rfl

end DwarfToPdb

namespace PdbToDwarf

theorem p2d_translate_ret (rootScope : Option IRScope) (typeTable : IRTypeTable) (maps : IRMaps) :
    (translate rootScope typeTable maps).ret
      = some { tag := 0x11, originalDieOffset := 0x2000, children := [] } := rfl

theorem p2d_translate_maps (rootScope : Option IRScope) (typeTable : IRTypeTable) (maps : IRMaps) :
    (translate rootScope typeTable maps).maps = maps := rfl

theorem p2d_translate_typeTable (rootScope : Option IRScope) (typeTable : IRTypeTable)
    (maps : IRMaps) : (translate rootScope typeTable maps).typeTable = typeTable := rfl

end PdbToDwarf

/-! ## Round trip -/

/-- C1 (evaluation at the failing input). On the Widget compile unit the four-stage round
trip returns the bare root that `PdbToDwarf::translate` always builds (tag `0x11`, no
attributes, no children), and `EqualDwarfNode` reports it different from the input. -/
theorem roundTrip_widget_not_equal :
    roundTripDwarf widgetCU
        = some { tag := 0x11, originalDieOffset := 0x2000, children := [] }
      ∧ EqualDwarfNode (some widgetCU) (roundTripDwarf widgetCU) = false :=
  ⟨rfl, by decide⟩

/-! ## Destination ids -/

/-- C2 (evaluation at the failing input). The scope read from the Widget compile unit
declares type id `1`; after `DwarfToPdb::translate` the maps record no PDB type index for
it, and after `PdbToDwarf::translate` on the scope read from a default `PdbNode` the maps
record no DIE offset for its declared type id `1`. -/
theorem translate_allocates_no_destination_id :
    (∃ root, (DwarfReader.readFromModel widgetCU {} {}).ret = some root
        ∧ root.declaredTypes = [1])
      ∧ (DwarfToPdb.translate (DwarfReader.readFromModel widgetCU {} {}).ret
            (DwarfReader.readFromModel widgetCU {} {}).typeTable
            (DwarfReader.readFromModel widgetCU {} {}).maps).maps.irToPdbTI.find 1 = none
      ∧ (∃ root, (PdbReader.readFromModel { children := [] } {} {}).ret = some root
        ∧ root.declaredTypes = [1])
      ∧ (PdbToDwarf.translate (PdbReader.readFromModel { children := [] } {} {}).ret
            (PdbReader.readFromModel { children := [] } {} {}).typeTable
            (PdbReader.readFromModel { children := [] } {} {}).maps).maps.irToDwarfDie.find 1
          = none :=
  ⟨⟨_, rfl, rfl⟩, by decide, ⟨_, rfl, rfl⟩, by decide⟩

/-- C3. Id stability: an entry `id ↦ dest` recorded in `irToPdbTI` before
`DwarfToPdb::translate` is recorded with the same value after the call and after a second
call on the table and maps the first one left; likewise for `irToDwarfDie` and
`PdbToDwarf::translate`. -/
theorem translate_keeps_recorded_ids (rootScope : Option IRScope) (typeTable : IRTypeTable)
    (maps : IRMaps) :
    (∀ id dest, maps.irToPdbTI.find id = some dest →
        (DwarfToPdb.translate rootScope typeTable maps).maps.irToPdbTI.find id = some dest
        ∧ (DwarfToPdb.translate rootScope
            (DwarfToPdb.translate rootScope typeTable maps).typeTable
            (DwarfToPdb.translate rootScope typeTable maps).maps).maps.irToPdbTI.find id
          = some dest)
      ∧ (∀ id dest, maps.irToDwarfDie.find id = some dest →
        (PdbToDwarf.translate rootScope typeTable maps).maps.irToDwarfDie.find id = some dest
        ∧ (PdbToDwarf.translate rootScope
            (PdbToDwarf.translate rootScope typeTable maps).typeTable
            (PdbToDwarf.translate rootScope typeTable maps).maps).maps.irToDwarfDie.find id
          = some dest) := by
  simp only [DwarfToPdb.d2p_translate_maps, PdbToDwarf.p2d_translate_maps]
  exact ⟨fun _ _ h => ⟨h, h⟩, fun _ _ h => ⟨h, h⟩⟩

/-- Witness of C3: the maps left by reading a PDB model with type index `0x1000` record
`1 ↦ 0x1000`, the maps left by reading the Widget compile unit record `1 ↦ 0`, and both
entries survive two translations. -/
theorem translate_keeps_recorded_ids_witness :
    ((PdbReader.readFromModel { typeIndexOrSymOffset := 0x1000, children := [] } {} {}).maps.irToPdbTI.find 1
        = some 0x1000
      ∧ (DwarfToPdb.translate none {}
          (DwarfToPdb.translate none {}
            (PdbReader.readFromModel { typeIndexOrSymOffset := 0x1000, children := [] } {} {}).maps).maps).maps.irToPdbTI.find 1
        = some 0x1000)
      ∧ ((DwarfReader.readFromModel widgetCU {} {}).maps.irToDwarfDie.find 1 = some 0
      ∧ (PdbToDwarf.translate none {}
          (PdbToDwarf.translate none {}
            (DwarfReader.readFromModel widgetCU {} {}).maps).maps).maps.irToDwarfDie.find 1
        = some 0) :=
  ⟨⟨by decide,
    ((translate_keeps_recorded_ids none {}
      (PdbReader.readFromModel { typeIndexOrSymOffset := 0x1000, children := [] } {} {}).maps).1
        1 0x1000 (by decide)).2⟩,
   ⟨by decide,
    ((translate_keeps_recorded_ids none {}
      (DwarfReader.readFromModel widgetCU {} {}).maps).2 1 0 (by decide)).2⟩⟩

/-! ## Idempotence -/

/-- C4. Idempotence: two calls of `DwarfToPdb::translate` on the same scope, the second on
the table the first one left, each with fresh empty maps, return trees that `EqualPdbNode`
reports equal; two such calls of `PdbToDwarf::translate` return trees that
`EqualDwarfNode` reports equal. -/
theorem translate_twice_fresh_maps_equal (rootScope : Option IRScope)
    (typeTable : IRTypeTable) :
    EqualPdbNode (DwarfToPdb.translate rootScope typeTable {}).ret
        (DwarfToPdb.translate rootScope
          (DwarfToPdb.translate rootScope typeTable {}).typeTable {}).ret = true
      ∧ EqualDwarfNode (PdbToDwarf.translate rootScope typeTable {}).ret
        (PdbToDwarf.translate rootScope
          (PdbToDwarf.translate rootScope typeTable {}).typeTable {}).ret = true := by
  simp only [DwarfToPdb.d2p_translate_ret, PdbToDwarf.p2d_translate_ret]
  exact ⟨by decide, by decide⟩

/-! ## Cycle safety -/

/-- C5 (evaluation at the failing input). The type read from the Widget compile unit has
the field `self` whose type id is the type's own id `1`; both translators return on that
IR, and the tree each returns has no node below the root: zero nodes are emitted for the
type, not one. -/
theorem translate_self_referential_emits_no_node :
    ((DwarfReader.readFromModel widgetCU {} {}).typeTable.lookup 1).map
        (fun t => t.fields.map (fun f => (f.name, f.type))) = some [("self", 1)]
      ∧ emittedTypeNodes PdbNode.children
          (DwarfToPdb.translate (DwarfReader.readFromModel widgetCU {} {}).ret
            (DwarfReader.readFromModel widgetCU {} {}).typeTable
            (DwarfReader.readFromModel widgetCU {} {}).maps).ret = 0
      ∧ emittedTypeNodes DwarfNode.children
          (PdbToDwarf.translate (DwarfReader.readFromModel widgetCU {} {}).ret
            (DwarfReader.readFromModel widgetCU {} {}).typeTable
            (DwarfReader.readFromModel widgetCU {} {}).maps).ret = 0 :=
  ⟨by decide, rfl, rfl⟩

/-! ## Lookup after assignment -/

namespace UMap

variable {V : Type}

theorem findIn_assignIn_self (l : List (Nat × V)) (k : Nat) (v : V) :
    findIn (assignIn l k v) k = some v := by
  induction l with
  | nil => simp [assignIn, findIn]
  | cons e rest ih =>
    obtain ⟨k', v'⟩ := e
    by_cases h : k' = k
    · simp [assignIn, findIn, h]
    · simp [assignIn, findIn, h, ih]

theorem findIn_assignIn_of_ne (l : List (Nat × V)) (k k' : Nat) (v : V) (hne : k' ≠ k) :
    findIn (assignIn l k v) k' = findIn l k' := by
  induction l with
  | nil => simp [assignIn, findIn, Ne.symm hne]
  | cons e rest ih =>
    obtain ⟨k₀, v₀⟩ := e
    by_cases h : k₀ = k
    · subst h
      simp [assignIn, findIn, Ne.symm hne]
    · by_cases h' : k₀ = k'
      · subst h'
        simp [assignIn, findIn, h]
      · simp [assignIn, findIn, h, h', ih]

theorem find_assign_self (m : UMap V) (k : Nat) (v : V) : (m.assign k v).find k = some v :=
  findIn_assignIn_self m.entries k v

theorem find_assign_of_ne (m : UMap V) (k k' : Nat) (v : V) (hne : k' ≠ k) :
    (m.assign k v).find k' = m.find k' :=
  findIn_assignIn_of_ne m.entries k k' v hne

end UMap

/-- Recording a new pair in both directions keeps two maps mutually inverse when neither
side of the pair was a key before. -/
theorem MutuallyInverse.assign {f g : UMap Nat} (h : MutuallyInverse f g) {a t : Nat}
    (ha : f.find a = none) (ht : g.find t = none) :
    MutuallyInverse (f.assign a t) (g.assign t a) := by
  intro k v
  by_cases hk : k = a
  · subst hk
    rw [UMap.find_assign_self]
    by_cases hv : v = t
    · subst hv
      rw [UMap.find_assign_self]
      simp
    · rw [UMap.find_assign_of_ne _ _ _ _ hv]
      constructor
      · intro e
        exact absurd (Option.some.inj e).symm hv
      · intro e
        have := (h k v).2 e
        rw [ha] at this
        exact absurd this (by simp)
  · rw [UMap.find_assign_of_ne _ _ _ _ hk]
    by_cases hv : v = t
    · subst hv
      rw [UMap.find_assign_self]
      constructor
      · intro e
        have := (h k v).1 e
        rw [ht] at this
        exact absurd this (by simp)
      · intro e
        exact absurd (Option.some.inj e).symm hk
    · rw [UMap.find_assign_of_ne _ _ _ _ hv]
      exact h k v

/-! ## What each reader leaves in the maps and the table -/

namespace DwarfReader

theorem dwarf_readFromModel_maps (model : DwarfNode) (typeTable : IRTypeTable) (maps : IRMaps) :
    (readFromModel model typeTable maps).maps
      = { maps with
          dwarfDieToIR := maps.dwarfDieToIR.assign model.originalDieOffset typeTable.nextID
          irToDwarfDie := maps.irToDwarfDie.assign typeTable.nextID model.originalDieOffset } :=
  rfl

theorem dwarf_readFromModel_nextID (model : DwarfNode) (typeTable : IRTypeTable) (maps : IRMaps) :
    (readFromModel model typeTable maps).typeTable.nextID
      = (typeTable.nextID + 1) % 2 ^ 32 := rfl

theorem readObject_maps (path : String) (typeTable : IRTypeTable) (maps : IRMaps) :
    (readObject path typeTable maps).maps
      = { maps with
          dwarfDieToIR := maps.dwarfDieToIR.assign 0x1234 typeTable.nextID
          irToDwarfDie := maps.irToDwarfDie.assign typeTable.nextID 0x1234 } := rfl

theorem readObject_nextID (path : String) (typeTable : IRTypeTable) (maps : IRMaps) :
    (readObject path typeTable maps).typeTable.nextID = (typeTable.nextID + 1) % 2 ^ 32 :=
  rfl

end DwarfReader

namespace PdbReader

theorem pdb_readFromModel_maps (model : PdbNode) (typeTable : IRTypeTable) (maps : IRMaps) :
    (readFromModel model typeTable maps).maps
      = { maps with
          pdbTIToIR := maps.pdbTIToIR.assign model.typeIndexOrSymOffset typeTable.nextID
          irToPdbTI := maps.irToPdbTI.assign typeTable.nextID model.typeIndexOrSymOffset } :=
  rfl

theorem pdb_readFromModel_nextID (model : PdbNode) (typeTable : IRTypeTable) (maps : IRMaps) :
    (readFromModel model typeTable maps).typeTable.nextID
      = (typeTable.nextID + 1) % 2 ^ 32 := rfl

theorem readPdb_maps (path : String) (typeTable : IRTypeTable) (maps : IRMaps) :
    (readPdb path typeTable maps).maps
      = { maps with
          pdbTIToIR := maps.pdbTIToIR.assign 0x1000 typeTable.nextID
          irToPdbTI := maps.irToPdbTI.assign typeTable.nextID 0x1000 } := rfl

theorem readPdb_nextID (path : String) (typeTable : IRTypeTable) (maps : IRMaps) :
    (readPdb path typeTable maps).typeTable.nextID = (typeTable.nextID + 1) % 2 ^ 32 := rfl

end PdbReader

/-! ## Bijectivity of the maps along a session -/

namespace Session

/-- A format-A reader step that records `off ↔ nextID` keeps the invariant. -/
theorem Inv.dwarfRecord {s s' : Session} {n0 c : Nat} (hs : s.Inv n0 c) (off : Nat)
    (hoff : s.maps.dwarfDieToIR.find off = none) (hc : c < 2 ^ 32)
    (hmaps : s'.maps = { s.maps with
        dwarfDieToIR := s.maps.dwarfDieToIR.assign off s.typeTable.nextID
        irToDwarfDie := s.maps.irToDwarfDie.assign s.typeTable.nextID off })
    (hnext : s'.typeTable.nextID = (s.typeTable.nextID + 1) % 2 ^ 32) :
    s'.Inv n0 (c + 1) := by
  have hid := hs.next
  refine ⟨?_, ?_, ?_, ?_⟩
  · rw [hnext, hid]
    show (((n0 + c) % 2 ^ 32 + 1) % 2 ^ 32 : Nat) = (n0 + (c + 1)) % 2 ^ 32
    omega
  · rw [IRMaps.Bijective, hmaps]
    refine ⟨hs.bij.1.assign hoff ?_, hs.bij.2⟩
    rw [hid]
    exact hs.dwarfUnused c (Nat.le_refl _) hc
  · intro j hj hj'
    rw [hmaps]
    show (s.maps.irToDwarfDie.assign s.typeTable.nextID off).find _ = none
    rw [UMap.find_assign_of_ne _ _ _ _ (by rw [hid]; omega)]
    exact hs.dwarfUnused j (by omega) hj'
  · intro j hj hj'
    rw [hmaps]
    exact hs.pdbUnused j (by omega) hj'

/-- A format-B reader step that records `ti ↔ nextID` keeps the invariant. -/
theorem Inv.pdbRecord {s s' : Session} {n0 c : Nat} (hs : s.Inv n0 c) (ti : Nat)
    (hti : s.maps.pdbTIToIR.find ti = none) (hc : c < 2 ^ 32)
    (hmaps : s'.maps = { s.maps with
        pdbTIToIR := s.maps.pdbTIToIR.assign ti s.typeTable.nextID
        irToPdbTI := s.maps.irToPdbTI.assign s.typeTable.nextID ti })
    (hnext : s'.typeTable.nextID = (s.typeTable.nextID + 1) % 2 ^ 32) :
    s'.Inv n0 (c + 1) := by
  have hid := hs.next
  refine ⟨?_, ?_, ?_, ?_⟩
  · rw [hnext, hid]
    show (((n0 + c) % 2 ^ 32 + 1) % 2 ^ 32 : Nat) = (n0 + (c + 1)) % 2 ^ 32
    omega
  · rw [IRMaps.Bijective, hmaps]
    refine ⟨hs.bij.1, hs.bij.2.assign hti ?_⟩
    rw [hid]
    exact hs.pdbUnused c (Nat.le_refl _) hc
  · intro j hj hj'
    rw [hmaps]
    exact hs.dwarfUnused j (by omega) hj'
  · intro j hj hj'
    rw [hmaps]
    show (s.maps.irToPdbTI.assign s.typeTable.nextID ti).find _ = none
    rw [UMap.find_assign_of_ne _ _ _ _ (by rw [hid]; omega)]
    exact hs.pdbUnused j (by omega) hj'

/-- One call keeps the invariant; a reader call advances the count of created types. -/
theorem Inv.step {s : Session} {n0 c : Nat} (hs : s.Inv n0 c) (op : SessionOp)
    (hop : s.consumesNewNativeId op = true)
    (hc : c + (if isReader op then 1 else 0) ≤ 2 ^ 32) :
    (s.step op).Inv n0 (c + (if isReader op then 1 else 0)) := by
  cases op with
  | dwarfReadObject path =>
    exact hs.dwarfRecord 0x1234 (Option.isNone_iff_eq_none.mp hop) hc
      (DwarfReader.readObject_maps path s.typeTable s.maps)
      (DwarfReader.readObject_nextID path s.typeTable s.maps)
  | dwarfReadFromModel model =>
    exact hs.dwarfRecord model.originalDieOffset (Option.isNone_iff_eq_none.mp hop) hc
      (DwarfReader.dwarf_readFromModel_maps model s.typeTable s.maps)
      (DwarfReader.dwarf_readFromModel_nextID model s.typeTable s.maps)
  | pdbReadPdb path =>
    exact hs.pdbRecord 0x1000 (Option.isNone_iff_eq_none.mp hop) hc
      (PdbReader.readPdb_maps path s.typeTable s.maps)
      (PdbReader.readPdb_nextID path s.typeTable s.maps)
  | pdbReadFromModel model =>
    exact hs.pdbRecord model.typeIndexOrSymOffset (Option.isNone_iff_eq_none.mp hop) hc
      (PdbReader.pdb_readFromModel_maps model s.typeTable s.maps)
      (PdbReader.pdb_readFromModel_nextID model s.typeTable s.maps)
  | dwarfToPdbTranslate rootScope => exact hs
  | pdbToDwarfTranslate rootScope => exact hs

/-- A sequence of calls keeps the invariant as long as at most `2 ^ 32` types are created
in all. -/
theorem Inv.run (n0 : Nat) (ops : List SessionOp) : ∀ {s : Session} {c : Nat}, s.Inv n0 c →
    s.nativeIdsDistinct ops = true → c + readerCalls ops ≤ 2 ^ 32 →
    (s.run ops).Inv n0 (c + readerCalls ops) := by
  induction ops with
  | nil => intro s c hs _ _; exact hs
  | cons op ops ih =>
    intro s c hs hd hlen
    rw [nativeIdsDistinct, Bool.and_eq_true] at hd
    rw [readerCalls] at hlen ⊢
    rw [← Nat.add_assoc] at hlen ⊢
    exact ih (hs.step op hd.1 (Nat.le_trans (Nat.le_add_right _ _) hlen)) hd.2 hlen

/-- The invariant holds at the start of a session: any table whose counter is a 32-bit
value, and empty maps. -/
theorem Inv.start (typeTable : IRTypeTable) (h32 : typeTable.nextID < 2 ^ 32) :
    Inv { typeTable := typeTable, maps := {} } typeTable.nextID 0 :=
  ⟨(Nat.mod_eq_of_lt h32).symm,
   ⟨fun _ _ => by simp [UMap.find, UMap.findIn], fun _ _ => by simp [UMap.find, UMap.findIn]⟩,
   fun _ _ _ => rfl, fun _ _ _ => rfl⟩

end Session

/-- C6 (counterexample). Two `DwarfReader::readFromModel` calls on the same model, sharing
one fresh table and one `IRMaps`, reach maps that are not mutually inverse:
`irToDwarfDie[1] = 0` while `dwarfDieToIR[0] = 2`. -/
theorem session_maps_not_bijective_after_reread :
    ¬ (Session.run {} [.dwarfReadFromModel emptyCU, .dwarfReadFromModel emptyCU]).maps.Bijective := by
  intro h
  have h1 := (h.1 0 1).2 (by decide)
  exact absurd h1 (by decide)

/-- C6 (amended). In every state reached from a type table (its counter a 32-bit value)
and the empty maps by a sequence of reader and translate calls sharing them, in which each
reader call consumes a native id not yet recorded for its format and at most `2 ^ 32`
reader calls are made (the 32-bit id counter hands out no id twice), the two maps of each
format are mutually inverse. -/
theorem session_maps_bijective (typeTable : IRTypeTable) (ops : List SessionOp)
    (h32 : typeTable.nextID < 2 ^ 32)
    (hdistinct : Session.nativeIdsDistinct { typeTable := typeTable, maps := {} } ops = true)
    (hcount : Session.readerCalls ops ≤ 2 ^ 32) :
    (Session.run { typeTable := typeTable, maps := {} } ops).maps.Bijective :=
  (Session.Inv.run typeTable.nextID ops (Session.Inv.start typeTable h32) hdistinct
    (by rw [Nat.zero_add]; exact hcount)).bij

/-- Witness of C6 (amended): a session of six calls on a fresh table, every reader once. -/
theorem session_maps_bijective_witness :
    ((({} : IRTypeTable).nextID < 2 ^ 32
      ∧ Session.nativeIdsDistinct {}
        [.dwarfReadFromModel widgetCU, .dwarfToPdbTranslate none,
          .pdbReadFromModel { typeIndexOrSymOffset := 7, children := [] },
          .pdbToDwarfTranslate none, .dwarfReadObject "a.o", .pdbReadPdb "a.pdb"] = true)
      ∧ Session.readerCalls
        [.dwarfReadFromModel widgetCU, .dwarfToPdbTranslate none,
          .pdbReadFromModel { typeIndexOrSymOffset := 7, children := [] },
          .pdbToDwarfTranslate none, .dwarfReadObject "a.o", .pdbReadPdb "a.pdb"] ≤ 2 ^ 32)
      ∧ (Session.run {}
        [.dwarfReadFromModel widgetCU, .dwarfToPdbTranslate none,
          .pdbReadFromModel { typeIndexOrSymOffset := 7, children := [] },
          .pdbToDwarfTranslate none, .dwarfReadObject "a.o", .pdbReadPdb "a.pdb"]).maps.Bijective :=
  ⟨⟨⟨by decide, by decide⟩, by decide⟩,
   session_maps_bijective {} _ (by decide) (by decide) (by decide)⟩

/-! ## The Widget scenario -/

/-- C7 (evaluation at the failing input). Reading the Widget compile unit on a fresh table
and fresh maps and then calling `DwarfToPdb::translate` yields a root with no child (one
node in all, not two), and leaves `irToPdbTI` and `pdbTIToIR` empty (no entry, not one). -/
theorem widget_translate_emits_root_only :
    (DwarfToPdb.translate (DwarfReader.readFromModel widgetCU {} {}).ret
        (DwarfReader.readFromModel widgetCU {} {}).typeTable
        (DwarfReader.readFromModel widgetCU {} {}).maps).ret
      = some { leafKind := 0x1234, prettyName := "PdbRootFromDwarf", children := [] }
    ∧ (DwarfToPdb.translate (DwarfReader.readFromModel widgetCU {} {}).ret
        (DwarfReader.readFromModel widgetCU {} {}).typeTable
        (DwarfReader.readFromModel widgetCU {} {}).maps).maps.irToPdbTI.size = 0
    ∧ (DwarfToPdb.translate (DwarfReader.readFromModel widgetCU {} {}).ret
        (DwarfReader.readFromModel widgetCU {} {}).typeTable
        (DwarfReader.readFromModel widgetCU {} {}).maps).maps.pdbTIToIR.size = 0 :=
  ⟨rfl, rfl, rfl⟩

/-- C8. For every format-A model whose string-attribute list starts with an attribute of
value `N`, `DwarfReader::readFromModel` on a fresh type table leaves a table holding
exactly one type `t`; `t` is named `N`, has kind `StructOrUnion` and exactly one field,
named `"self"`, whose type id is `t.id`; the returned scope's `declaredTypes` is exactly
`[t.id]`. -/
theorem readFromModel_one_named_self_type (model : DwarfNode) (code : Nat) (N : String)
    (rest : List (Nat × String)) (maps : IRMaps)
    (hattr : model.attrsStr = (code, N) :: rest) :
    ∃ t root,
      (DwarfReader.readFromModel model {} maps).typeTable.types.entries = [(t.id, t)]
      ∧ (DwarfReader.readFromModel model {} maps).typeTable.types.size = 1
      ∧ (DwarfReader.readFromModel model {} maps).typeTable.lookup t.id = some t
      ∧ t.name = N
      ∧ t.kind = IRTypeKind.StructOrUnion
      ∧ (∃ f, t.fields = [f] ∧ f.name = "self" ∧ f.type = t.id)
      ∧ (DwarfReader.readFromModel model {} maps).ret = some root
      ∧ root.declaredTypes = [t.id] := by
  obtain ⟨tag, attrsStr, attrsU64, parent, children, off⟩ := model
  simp only at hattr
  subst hattr
  refine ⟨{ id := 1, kind := IRTypeKind.StructOrUnion, name := N, sizeBytes := 16,
            fields := [{ name := "self", type := 1 }] },
          { kind := IRScopeKind.CompileUnit, name := "fromModel", children := [],
            declaredTypes := [1],
            declaredSymbols := [{ name := "symFromDwarf", kind := IRSymbolKind.Variable,
                                  type := 1 }] }, ?_⟩
  refine ⟨rfl, rfl, ?_, rfl, rfl, ⟨_, rfl, rfl, rfl⟩, rfl, rfl⟩
  simp [DwarfReader.readFromModel, IRTypeTable.createType, IRTypeTable.store,
    IRTypeTable.lookup, UMap.find, UMap.assign, UMap.assignIn, UMap.findIn]

/-- Witness of C8: the Widget compile unit, tag `0x11` with the single string attribute
`(0x03, "Widget")`. -/
theorem readFromModel_one_named_self_type_witness :
    widgetCU.attrsStr = (0x03, "Widget") :: []
      ∧ ∃ t root,
        (DwarfReader.readFromModel widgetCU {} {}).typeTable.types.entries = [(t.id, t)]
        ∧ (DwarfReader.readFromModel widgetCU {} {}).typeTable.types.size = 1
        ∧ (DwarfReader.readFromModel widgetCU {} {}).typeTable.lookup t.id = some t
        ∧ t.name = "Widget"
        ∧ t.kind = IRTypeKind.StructOrUnion
        ∧ (∃ f, t.fields = [f] ∧ f.name = "self" ∧ f.type = t.id)
        ∧ (DwarfReader.readFromModel widgetCU {} {}).ret = some root
        ∧ root.declaredTypes = [t.id] :=
  ⟨rfl, readFromModel_one_named_self_type widgetCU 0x03 "Widget" [] {} rfl⟩

/-! ## Reader totality and the recorded correspondence -/

/-- C9. For every `DwarfNode` model and every `PdbNode` model, on any table and maps,
`readFromModel` returns a non-null root scope of kind `CompileUnit` that has no parent,
no child scopes, and exactly one entry in `declaredTypes`. -/
theorem readFromModel_returns_compile_unit (dm : DwarfNode) (pm : PdbNode)
    (typeTable : IRTypeTable) (maps : IRMaps) :
    (∃ root, (DwarfReader.readFromModel dm typeTable maps).ret = some root
        ∧ root.kind = IRScopeKind.CompileUnit ∧ root.parent = none ∧ root.children = []
        ∧ root.declaredTypes.length = 1)
      ∧ (∃ root, (PdbReader.readFromModel pm typeTable maps).ret = some root
        ∧ root.kind = IRScopeKind.CompileUnit ∧ root.parent = none ∧ root.children = []
        ∧ root.declaredTypes.length = 1) :=
  ⟨⟨_, rfl, rfl, rfl, rfl, rfl⟩, ⟨_, rfl, rfl, rfl, rfl, rfl⟩⟩

/-- C10. After `DwarfReader::readFromModel`, with `t` the id of the type it created (the
single entry of the returned scope's `declaredTypes`, stored in the table under `t`),
`dwarfDieToIR[model.originalDieOffset] = t` and `irToDwarfDie[t] = model.originalDieOffset`,
and `pdbTIToIR`, `irToPdbTI` are unchanged; symmetrically after
`PdbReader::readFromModel`, `pdbTIToIR[model.typeIndexOrSymOffset] = t` and
`irToPdbTI[t] = model.typeIndexOrSymOffset`, and the two format-A maps are unchanged. -/
theorem readFromModel_records_both_directions (dm : DwarfNode) (pm : PdbNode)
    (typeTable : IRTypeTable) (maps : IRMaps) :
    (∃ root t, (DwarfReader.readFromModel dm typeTable maps).ret = some root
        ∧ root.declaredTypes = [t]
        ∧ ((DwarfReader.readFromModel dm typeTable maps).typeTable.lookup t).map IRType.id
            = some t
        ∧ (DwarfReader.readFromModel dm typeTable maps).maps.dwarfDieToIR.find
            dm.originalDieOffset = some t
        ∧ (DwarfReader.readFromModel dm typeTable maps).maps.irToDwarfDie.find t
            = some dm.originalDieOffset
        ∧ (DwarfReader.readFromModel dm typeTable maps).maps.pdbTIToIR = maps.pdbTIToIR
        ∧ (DwarfReader.readFromModel dm typeTable maps).maps.irToPdbTI = maps.irToPdbTI)
      ∧ (∃ root t, (PdbReader.readFromModel pm typeTable maps).ret = some root
        ∧ root.declaredTypes = [t]
        ∧ ((PdbReader.readFromModel pm typeTable maps).typeTable.lookup t).map IRType.id
            = some t
        ∧ (PdbReader.readFromModel pm typeTable maps).maps.pdbTIToIR.find
            pm.typeIndexOrSymOffset = some t
        ∧ (PdbReader.readFromModel pm typeTable maps).maps.irToPdbTI.find t
            = some pm.typeIndexOrSymOffset
        ∧ (PdbReader.readFromModel pm typeTable maps).maps.dwarfDieToIR = maps.dwarfDieToIR
        ∧ (PdbReader.readFromModel pm typeTable maps).maps.irToDwarfDie
            = maps.irToDwarfDie) := by
  refine ⟨⟨_, typeTable.nextID, rfl, rfl, ?_, ?_, ?_, rfl, rfl⟩,
          ⟨_, typeTable.nextID, rfl, rfl, ?_, ?_, ?_, rfl, rfl⟩⟩
  · simp [DwarfReader.readFromModel, IRTypeTable.createType, IRTypeTable.store,
      IRTypeTable.lookup, UMap.find_assign_self]
  · rw [DwarfReader.dwarf_readFromModel_maps]
    exact UMap.find_assign_self _ _ _
  · rw [DwarfReader.dwarf_readFromModel_maps]
    exact UMap.find_assign_self _ _ _
  · simp [PdbReader.readFromModel, IRTypeTable.createType, IRTypeTable.store,
      IRTypeTable.lookup, UMap.find_assign_self]
  · rw [PdbReader.pdb_readFromModel_maps]
    exact UMap.find_assign_self _ _ _
  · rw [PdbReader.pdb_readFromModel_maps]
    exact UMap.find_assign_self _ _ _

/-! ## Constructs the readers do not model -/

/-- C11 (counterexample). For the format-A node with tag `0x2e` (not a compile unit) and
no name attribute, `DwarfReader::readFromModel` returns a scope and creates the type
`AnonFromDwarfNode` of kind `StructOrUnion` and size 16, which is not a placeholder; for
the `PdbNode` with no pretty name `PdbReader::readFromModel` creates `AnonFromPdbNode`, a
union of size 8, not a placeholder either. -/
theorem readFromModel_unmodelled_not_placeholder :
    ((DwarfReader.readFromModel unnamedSubprogramDie {} {}).ret.isSome = true
      ∧ ∃ t, (DwarfReader.readFromModel unnamedSubprogramDie {} {}).typeTable.lookup 1 = some t
        ∧ t.kind = IRTypeKind.StructOrUnion ∧ t.sizeBytes = 16 ∧ t.isPlaceholder = false)
    ∧ ((PdbReader.readFromModel { children := [] } {} {}).ret.isSome = true
      ∧ ∃ t, (PdbReader.readFromModel { children := [] } {} {}).typeTable.lookup 1 = some t
        ∧ t.kind = IRTypeKind.StructOrUnion ∧ t.sizeBytes = 8 ∧ t.isPlaceholder = false) :=
  ⟨⟨rfl, _, rfl, rfl, rfl, by decide⟩, ⟨rfl, _, rfl, rfl, rfl, by decide⟩⟩

/-- C11 (amended). For every model, whatever its tag or leaf kind, attributes and
children, on any table: `readFromModel` returns a scope, and the type it creates (stored
under the id the table handed out) has kind `StructOrUnion` and `sizeBytes` 16 for format
A, and kind `StructOrUnion`, `isUnion` and `sizeBytes` 8 for format B; when the model
carries no name (no string attribute, resp. an empty `prettyName`) the type gets the
non-empty fallback name `AnonFromDwarfNode`, resp. `AnonFromPdbNode`. -/
theorem readFromModel_unmodelled_fallback (dm : DwarfNode) (pm : PdbNode)
    (typeTable : IRTypeTable) (maps : IRMaps) :
    ((DwarfReader.readFromModel dm typeTable maps).ret.isSome = true
      ∧ ∃ t, (DwarfReader.readFromModel dm typeTable maps).typeTable.lookup typeTable.nextID
            = some t
        ∧ t.kind = IRTypeKind.StructOrUnion ∧ t.sizeBytes = 16
        ∧ (dm.attrsStr = [] → t.name = "AnonFromDwarfNode" ∧ t.name ≠ ""))
    ∧ ((PdbReader.readFromModel pm typeTable maps).ret.isSome = true
      ∧ ∃ t, (PdbReader.readFromModel pm typeTable maps).typeTable.lookup typeTable.nextID
            = some t
        ∧ t.kind = IRTypeKind.StructOrUnion ∧ t.isUnion = true ∧ t.sizeBytes = 8
        ∧ (pm.prettyName = "" → t.name = "AnonFromPdbNode" ∧ t.name ≠ "")) := by
  refine ⟨⟨rfl, _, UMap.find_assign_self _ _ _, rfl, rfl, ?_⟩,
          ⟨rfl, _, UMap.find_assign_self _ _ _, rfl, rfl, rfl, ?_⟩⟩
  · intro h
    simp [h]
  · intro h
    simp [h]

/-- Witness of C11 (amended): the unnamed non-compile-unit DIE and the default
`PdbNode`. -/
theorem readFromModel_unmodelled_fallback_witness :
    (unnamedSubprogramDie.attrsStr = []
      ∧ ((DwarfReader.readFromModel unnamedSubprogramDie {} {}).typeTable.lookup 1).map
          IRType.name = some "AnonFromDwarfNode")
    ∧ ((({ children := [] } : PdbNode).prettyName = "")
      ∧ ((PdbReader.readFromModel { children := [] } {} {}).typeTable.lookup 1).map
          IRType.name = some "AnonFromPdbNode") := by
  obtain ⟨⟨_, t, ht, _, _, hn⟩, ⟨_, u, hu, _, _, _, hm⟩⟩ :=
    readFromModel_unmodelled_fallback unnamedSubprogramDie { children := [] } {} {}
  refine ⟨⟨rfl, ?_⟩, ⟨rfl, ?_⟩⟩
  · rw [show ({} : IRTypeTable).nextID = 1 from rfl] at ht
    rw [ht, Option.map_some', (hn rfl).1]
  · rw [show ({} : IRTypeTable).nextID = 1 from rfl] at hu
    rw [hu, Option.map_some', (hm rfl).1]

/-! ## Reader determinism -/

/-- `EqualIRType` reports every type equal to itself. -/
theorem EqualIRType_self (t : IRType) : EqualIRType (some t) (some t) = true := by
  have hd : ∀ l : List IRArrayDim, CompareVecLoop
      (fun x y => x.lowerBound == y.lowerBound && x.count == y.count) l l = true := by
    intro l
    induction l with
    | nil => rfl
    | cons a l ih => simp [CompareVecLoop, ih]
  have hf : ∀ l : List IRField, CompareVecLoop
      (fun x y => x.name == y.name && x.type == y.type && x.byteOffset == y.byteOffset
        && x.bitOffset == y.bitOffset && x.bitSize == y.bitSize
        && x.isAnonymousArm == y.isAnonymousArm) l l = true := by
    intro l
    induction l with
    | nil => rfl
    | cons a l ih => simp [CompareVecLoop, ih]
  simp [EqualIRType, CompareVec, hd, hf]

/-- What `DwarfReader::readFromModel` creates: a scope declaring the id the table handed
out, and a type stored under that id and carrying it. -/
theorem dwarf_readFromModel_created (model : DwarfNode) (typeTable : IRTypeTable)
    (maps : IRMaps) :
    ∃ root t, (DwarfReader.readFromModel model typeTable maps).ret = some root
      ∧ (DwarfReader.readFromModel model typeTable maps).typeTable.lookup typeTable.nextID
          = some t
      ∧ t.id = typeTable.nextID ∧ root.declaredTypes = [typeTable.nextID] :=
  ⟨_, _, rfl, UMap.find_assign_self _ _ _, rfl, rfl⟩

/-- What `PdbReader::readFromModel` creates: a scope declaring the id the table handed
out, and a type stored under that id and carrying it. -/
theorem pdb_readFromModel_created (model : PdbNode) (typeTable : IRTypeTable)
    (maps : IRMaps) :
    ∃ root t, (PdbReader.readFromModel model typeTable maps).ret = some root
      ∧ (PdbReader.readFromModel model typeTable maps).typeTable.lookup typeTable.nextID
          = some t
      ∧ t.id = typeTable.nextID ∧ root.declaredTypes = [typeTable.nextID] :=
  ⟨_, _, rfl, UMap.find_assign_self _ _ _, rfl, rfl⟩

/-- The scope `DwarfReader::readFromModel` returns on a fresh table does not depend on the
model. -/
theorem dwarf_readFromModel_ret_fresh (model : DwarfNode) (maps : IRMaps) :
    (DwarfReader.readFromModel model {} maps).ret
      = some { kind := IRScopeKind.CompileUnit, name := "fromModel", children := [],
               declaredTypes := [1],
               declaredSymbols := [{ name := "symFromDwarf", kind := IRSymbolKind.Variable,
                                     type := 1 }] } := rfl

/-- The scope `PdbReader::readFromModel` returns on a fresh table does not depend on the
model. -/
theorem pdb_readFromModel_ret_fresh (model : PdbNode) (maps : IRMaps) :
    (PdbReader.readFromModel model {} maps).ret
      = some { kind := IRScopeKind.CompileUnit, name := "fromPdbModel", children := [],
               declaredTypes := [1],
               declaredSymbols := [{ name := "symFromPdb", kind := IRSymbolKind.Variable,
                                     type := 1 }] } := rfl

/-- C12. Reader determinism: two runs of `readFromModel` on one model, each on its own
fresh table and fresh maps, return scopes that `EqualIRScope` reports equal, create types
(the single declared type of each scope, looked up in that run's table) that `EqualIRType`
reports equal and that carry the same id, and leave identical maps; for both formats. -/
theorem readFromModel_deterministic (dm : DwarfNode) (pm : PdbNode) :
    (EqualIRScope (DwarfReader.readFromModel dm {} {}).ret
        (DwarfReader.readFromModel dm {} {}).ret = true
      ∧ (∃ root1 root2 t1 t2,
          (DwarfReader.readFromModel dm {} {}).ret = some root1
          ∧ (DwarfReader.readFromModel dm {} {}).ret = some root2
          ∧ root1.declaredTypes = [t1.id] ∧ root2.declaredTypes = [t2.id]
          ∧ (DwarfReader.readFromModel dm {} {}).typeTable.lookup t1.id = some t1
          ∧ (DwarfReader.readFromModel dm {} {}).typeTable.lookup t2.id = some t2
          ∧ EqualIRType (some t1) (some t2) = true ∧ t1.id = t2.id)
      ∧ (DwarfReader.readFromModel dm {} {}).maps = (DwarfReader.readFromModel dm {} {}).maps)
    ∧ (EqualIRScope (PdbReader.readFromModel pm {} {}).ret
        (PdbReader.readFromModel pm {} {}).ret = true
      ∧ (∃ root1 root2 t1 t2,
          (PdbReader.readFromModel pm {} {}).ret = some root1
          ∧ (PdbReader.readFromModel pm {} {}).ret = some root2
          ∧ root1.declaredTypes = [t1.id] ∧ root2.declaredTypes = [t2.id]
          ∧ (PdbReader.readFromModel pm {} {}).typeTable.lookup t1.id = some t1
          ∧ (PdbReader.readFromModel pm {} {}).typeTable.lookup t2.id = some t2
          ∧ EqualIRType (some t1) (some t2) = true ∧ t1.id = t2.id)
      ∧ (PdbReader.readFromModel pm {} {}).maps = (PdbReader.readFromModel pm {} {}).maps) := by
  obtain ⟨rd, td, hrd, hld, hid, hdd⟩ := dwarf_readFromModel_created dm {} {}
  obtain ⟨rp, tp, hrp, hlp, hip, hdp⟩ := pdb_readFromModel_created pm {} {}
  rw [← hid] at hld hdd
  rw [← hip] at hlp hdp
  have hsd : EqualIRScope (DwarfReader.readFromModel dm {} {}).ret
      (DwarfReader.readFromModel dm {} {}).ret = true := by
    rw [dwarf_readFromModel_ret_fresh]
    decide
  have hsp : EqualIRScope (PdbReader.readFromModel pm {} {}).ret
      (PdbReader.readFromModel pm {} {}).ret = true := by
    rw [pdb_readFromModel_ret_fresh]
    decide
  exact ⟨⟨hsd, ⟨rd, rd, td, td, hrd, hrd, hdd, hdd, hld, hld, EqualIRType_self td, rfl⟩, rfl⟩,
         ⟨hsp, ⟨rp, rp, tp, tp, hrp, hrp, hdp, hdp, hlp, hlp, EqualIRType_self tp, rfl⟩, rfl⟩⟩

/-! ## Ids handed out by the type table -/

namespace IRTypeTable

theorem createdIds_nil (tbl : IRTypeTable) : tbl.createdIds [] = [] := rfl

theorem createdIds_cons (tbl : IRTypeTable) (k : IRTypeKind) (ks : List IRTypeKind) :
    tbl.createdIds (k :: ks) = tbl.nextID :: (tbl.createType k).2.createdIds ks := rfl

theorem createType_nextID (tbl : IRTypeTable) (k : IRTypeKind) :
    (tbl.createType k).2.nextID = (tbl.nextID + 1) % 2 ^ 32 := rfl

theorem createdIds_length (kinds : List IRTypeKind) :
    ∀ tbl : IRTypeTable, (tbl.createdIds kinds).length = kinds.length := by
  induction kinds with
  | nil => intro tbl; rfl
  | cons k ks ih =>
    intro tbl
    rw [createdIds_cons, List.length_cons, List.length_cons, ih]

/-- The call number `i + 1` of a sequence returns the id `nextID + i`, reduced to 32 bits. -/
theorem createdIds_getElem? (kinds : List IRTypeKind) :
    ∀ (tbl : IRTypeTable) (i : Nat), tbl.nextID < 2 ^ 32 → i < kinds.length →
      (tbl.createdIds kinds)[i]? = some ((tbl.nextID + i) % 2 ^ 32) := by
  induction kinds with
  | nil => intro tbl i _ hi; exact absurd hi (Nat.not_lt_zero _)
  | cons k ks ih =>
    intro tbl i h32 hi
    rw [createdIds_cons]
    cases i with
    | zero =>
      rw [List.getElem?_cons_zero, Nat.add_zero, Nat.mod_eq_of_lt h32]
    | succ j =>
      have hj : j < ks.length := Nat.lt_of_succ_lt_succ hi
      have harith : ∀ n : Nat, ((n + 1) % 2 ^ 32 + j) % 2 ^ 32 = (n + (j + 1)) % 2 ^ 32 := by
        intro n
        omega
      rw [List.getElem?_cons_succ, ih (tbl.createType k).2 j (Nat.mod_lt _ (by norm_num)) hj,
        createType_nextID]
      exact congrArg some (harith tbl.nextID)

/-- On a fresh table, fewer than `2 ^ 32` calls return the ids `1, 2, …, n` in order. -/
theorem createdIds_fresh (kinds : List IRTypeKind) (hlen : kinds.length < 2 ^ 32) :
    ({} : IRTypeTable).createdIds kinds = List.range' 1 kinds.length := by
  apply List.ext_getElem?
  intro i
  by_cases hi : i < kinds.length
  · rw [createdIds_getElem? kinds {} i (by decide) hi, List.getElem?_range' _ _ hi]
    show some ((1 + i) % 2 ^ 32) = some (1 + 1 * i)
    rw [Nat.one_mul, Nat.mod_eq_of_lt (by omega)]
  · rw [List.getElem?_eq_none (by rw [createdIds_length]; omega),
      List.getElem?_eq_none (by rw [List.length_range']; omega)]

end IRTypeTable

/-- C13 (counterexample). On a fresh table the call number `2 ^ 32` of a sequence of
`createType` calls returns id `0`, the reserved value, and the call number `2 ^ 32 + 1`
returns id `1`, the id the first call returned: the 32-bit counter wraps. -/
theorem createType_reuses_id_after_wrap :
    (({} : IRTypeTable).createdIds (List.replicate (2 ^ 32 + 1) IRTypeKind.Unknown))[0]?
        = some 1
      ∧ (({} : IRTypeTable).createdIds
          (List.replicate (2 ^ 32 + 1) IRTypeKind.Unknown))[2 ^ 32 - 1]? = some 0
      ∧ (({} : IRTypeTable).createdIds
          (List.replicate (2 ^ 32 + 1) IRTypeKind.Unknown))[2 ^ 32]? = some 1 := by
  have hlen : (List.replicate (2 ^ 32 + 1) IRTypeKind.Unknown).length = 2 ^ 32 + 1 :=
    List.length_replicate _ _
  refine ⟨?_, ?_, ?_⟩
  · rw [IRTypeTable.createdIds_getElem? _ {} 0 (by decide) (by rw [hlen]; norm_num)]
    rfl
  · rw [IRTypeTable.createdIds_getElem? _ {} (2 ^ 32 - 1) (by decide) (by rw [hlen]; norm_num)]
    rfl
  · rw [IRTypeTable.createdIds_getElem? _ {} (2 ^ 32) (by decide) (by rw [hlen]; norm_num)]
    rfl

/-- C13 (amended). For every sequence of fewer than `2 ^ 32` `createType` calls on a fresh
table, with any kinds (repeated kinds included), the returned ids are pairwise different
and none of them is `0`. -/
theorem createType_ids_distinct_nonzero (kinds : List IRTypeKind)
    (hlen : kinds.length < 2 ^ 32) :
    (({} : IRTypeTable).createdIds kinds).Nodup ∧ 0 ∉ ({} : IRTypeTable).createdIds kinds := by
  rw [IRTypeTable.createdIds_fresh kinds hlen]
  refine ⟨List.nodup_range' 1 kinds.length, ?_⟩
  intro h0
  have := (List.mem_range'_1.mp h0).1
  omega

/-- Witness of C13 (amended): four calls, three of them with the same kind. -/
theorem createType_ids_distinct_nonzero_witness :
    [IRTypeKind.StructOrUnion, IRTypeKind.StructOrUnion, IRTypeKind.Pointer,
        IRTypeKind.StructOrUnion].length < 2 ^ 32
      ∧ (({} : IRTypeTable).createdIds [IRTypeKind.StructOrUnion, IRTypeKind.StructOrUnion,
          IRTypeKind.Pointer, IRTypeKind.StructOrUnion]).Nodup
      ∧ 0 ∉ ({} : IRTypeTable).createdIds [IRTypeKind.StructOrUnion,
          IRTypeKind.StructOrUnion, IRTypeKind.Pointer, IRTypeKind.StructOrUnion] :=
  ⟨by decide, createType_ids_distinct_nonzero _ (by decide)⟩

/-- C14 (counterexample). On a fresh table the call number `2 ^ 32` returns id `0`, not
`2 ^ 32`, right after the call number `2 ^ 32 - 1` returned `2 ^ 32 - 1`: the ids do not
keep increasing. -/
theorem createType_id_not_sequential_at_wrap :
    (({} : IRTypeTable).createdIds (List.replicate (2 ^ 32) IRTypeKind.Unknown))[2 ^ 32 - 2]?
        = some (2 ^ 32 - 1)
      ∧ (({} : IRTypeTable).createdIds
          (List.replicate (2 ^ 32) IRTypeKind.Unknown))[2 ^ 32 - 1]? = some 0
      ∧ (({} : IRTypeTable).createdIds
          (List.replicate (2 ^ 32) IRTypeKind.Unknown))[2 ^ 32 - 1]? ≠ some (2 ^ 32) := by
  have hlen : (List.replicate (2 ^ 32) IRTypeKind.Unknown).length = 2 ^ 32 :=
    List.length_replicate _ _
  have h0 : (({} : IRTypeTable).createdIds
      (List.replicate (2 ^ 32) IRTypeKind.Unknown))[2 ^ 32 - 1]? = some 0 := by
    rw [IRTypeTable.createdIds_getElem? _ {} (2 ^ 32 - 1) (by decide) (by rw [hlen]; norm_num)]
    rfl
  refine ⟨?_, h0, ?_⟩
  · rw [IRTypeTable.createdIds_getElem? _ {} (2 ^ 32 - 2) (by decide) (by rw [hlen]; norm_num)]
    rfl
  · rw [h0]
    decide

/-- C14 (amended). On a fresh table the call number `n` of a sequence of `createType`
calls returns id `n` for every `n` with `1 ≤ n < 2 ^ 32`, and so did every earlier call
`m < n`: up to there the ids increase strictly in creation order. -/
theorem createType_nth_id (kinds : List IRTypeKind) (n : Nat) (h1 : 1 ≤ n)
    (hn : n ≤ kinds.length) (h32 : n < 2 ^ 32) :
    (({} : IRTypeTable).createdIds kinds)[n - 1]? = some n
      ∧ ∀ m, 1 ≤ m → m < n → (({} : IRTypeTable).createdIds kinds)[m - 1]? = some m := by
  have key : ∀ m, 1 ≤ m → m ≤ n → (({} : IRTypeTable).createdIds kinds)[m - 1]? = some m := by
    intro m hm hmn
    rw [IRTypeTable.createdIds_getElem? kinds {} (m - 1) (by decide) (by omega)]
    show some ((1 + (m - 1)) % 2 ^ 32) = some m
    rw [Nat.mod_eq_of_lt (by omega)]
    congr 1
    omega
  exact ⟨key n h1 (Nat.le_refl n), fun m hm hmn => key m hm (Nat.le_of_lt hmn)⟩

/-- Witness of C14 (amended): the third of three calls returns id 3. -/
theorem createType_nth_id_witness :
    (1 ≤ 3 ∧ 3 ≤ [IRTypeKind.Array, IRTypeKind.Array, IRTypeKind.Unknown].length
        ∧ 3 < 2 ^ 32)
      ∧ (({} : IRTypeTable).createdIds
          [IRTypeKind.Array, IRTypeKind.Array, IRTypeKind.Unknown])[3 - 1]? = some 3 :=
  ⟨⟨by decide, by decide, by decide⟩,
   (createType_nth_id [IRTypeKind.Array, IRTypeKind.Array, IRTypeKind.Unknown] 3
      (by decide) (by decide) (by decide)).1⟩

/-! ## `createType` followed by `lookup`, and `lookup` of an absent id -/

/-- C15. For every table and kind `k`, right after `t = createType(k)` the lookup of
`t.id` in the table left behind returns `t` itself; `t` has kind `k`, carries the id the
table handed out, and its body is empty: empty name, no fields, no dims, `isForwardDecl`
and `isUnion` false, and `sizeBytes`, `elementType`, `indexType`, `pointeeType` and
`ptrSizeBytes` all `0`. -/
theorem createType_then_lookup (tbl : IRTypeTable) (k : IRTypeKind) :
    (tbl.createType k).2.lookup (tbl.createType k).1.id = some (tbl.createType k).1
      ∧ (tbl.createType k).1.kind = k
      ∧ (tbl.createType k).1.id = tbl.nextID
      ∧ (tbl.createType k).1.name = ""
      ∧ (tbl.createType k).1.fields = []
      ∧ (tbl.createType k).1.dims = []
      ∧ (tbl.createType k).1.isForwardDecl = false
      ∧ (tbl.createType k).1.isUnion = false
      ∧ (tbl.createType k).1.sizeBytes = 0
      ∧ (tbl.createType k).1.elementType = 0
      ∧ (tbl.createType k).1.indexType = 0
      ∧ (tbl.createType k).1.pointeeType = 0
      ∧ (tbl.createType k).1.ptrSizeBytes = 0 :=
  ⟨UMap.find_assign_self _ _ _, rfl, rfl, rfl, rfl, rfl, rfl, rfl, rfl, rfl, rfl, rfl, rfl⟩

namespace IRTypeTable

/-- An id that is neither stored in a table nor returned by a sequence of `createType`
calls is not stored in the table the sequence leaves. -/
theorem createTypes_find_none (kinds : List IRTypeKind) :
    ∀ (tbl : IRTypeTable) (id : IRTypeID), tbl.types.find id = none →
      id ∉ tbl.createdIds kinds → (tbl.createTypes kinds).2.types.find id = none := by
  induction kinds with
  | nil => intro tbl id h _; exact h
  | cons k ks ih =>
    intro tbl id h hid
    rw [createdIds_cons, List.mem_cons, not_or] at hid
    refine ih (tbl.createType k).2 id ?_ hid.2
    show (tbl.types.assign tbl.nextID _).find id = none
    rw [UMap.find_assign_of_ne _ _ _ _ hid.1]
    exact h

/-- A sequence of `createType` calls leaves the entry of every id it did not return as it
was. -/
theorem createTypes_find_of_not_mem (kinds : List IRTypeKind) :
    ∀ (tbl : IRTypeTable) (id : IRTypeID), id ∉ tbl.createdIds kinds →
      (tbl.createTypes kinds).2.types.find id = tbl.types.find id := by
  induction kinds with
  | nil => intro tbl id _; rfl
  | cons k ks ih =>
    intro tbl id hid
    rw [createdIds_cons, List.mem_cons, not_or] at hid
    show ((tbl.createType k).2.createTypes ks).2.types.find id = _
    rw [ih (tbl.createType k).2 id hid.2]
    exact UMap.find_assign_of_ne _ _ _ _ hid.1

/-- Every id that a sequence of `createType` calls returned is stored in the table the
sequence leaves. -/
theorem createTypes_find_isSome (kinds : List IRTypeKind) :
    ∀ (tbl : IRTypeTable) (id : IRTypeID), id ∈ tbl.createdIds kinds →
      ((tbl.createTypes kinds).2.types.find id).isSome = true := by
  induction kinds with
  | nil => intro tbl id hid; exact absurd hid (List.not_mem_nil _)
  | cons k ks ih =>
    intro tbl id hid
    by_cases hrest : id ∈ (tbl.createType k).2.createdIds ks
    · exact ih (tbl.createType k).2 id hrest
    · rw [createdIds_cons, List.mem_cons] at hid
      have hfirst : id = tbl.nextID := hid.resolve_right hrest
      show (((tbl.createType k).2.createTypes ks).2.types.find id).isSome = true
      rw [createTypes_find_of_not_mem ks (tbl.createType k).2 id hrest, hfirst]
      show ((tbl.types.assign tbl.nextID _).find tbl.nextID).isSome = true
      rw [UMap.find_assign_self]
      rfl

end IRTypeTable

/-- C16 (counterexample). On a fresh table the call number `2 ^ 32` of a sequence of
`createType` calls returns id `0`, and in the table the sequence leaves `lookup(0)` finds a
type: it does not return the not-found result. -/
theorem lookup_zero_found_after_wrap :
    (({} : IRTypeTable).createdIds (List.replicate (2 ^ 32) IRTypeKind.Unknown))[2 ^ 32 - 1]?
        = some 0
      ∧ ((({} : IRTypeTable).createTypes
          (List.replicate (2 ^ 32) IRTypeKind.Unknown)).2.lookup 0).isSome = true := by
  have hlen : (List.replicate (2 ^ 32) IRTypeKind.Unknown).length = 2 ^ 32 :=
    List.length_replicate _ _
  have h0 : (({} : IRTypeTable).createdIds
      (List.replicate (2 ^ 32) IRTypeKind.Unknown))[2 ^ 32 - 1]? = some 0 := by
    rw [IRTypeTable.createdIds_getElem? _ {} (2 ^ 32 - 1) (by decide) (by rw [hlen]; norm_num)]
    rfl
  exact ⟨h0, IRTypeTable.createTypes_find_isSome _ {} 0 (List.mem_iff_getElem?.mpr ⟨_, h0⟩)⟩

/-- C16 (amended). For every table reached from a fresh one by a sequence of `createType`
calls and every id that none of those calls returned, `lookup(id)` returns the not-found
result `none` (the `nullptr` of the source) and leaves the table as it was; when the
sequence has fewer than `2 ^ 32` calls, id `0` is such an id: no call returned it,
`lookup(0)` returns `none` and leaves the table as it was. -/
theorem lookup_absent_id (kinds : List IRTypeKind) :
    (∀ id : IRTypeID, id ∉ ({} : IRTypeTable).createdIds kinds →
        ((({} : IRTypeTable).createTypes kinds).2.lookupCall id).1 = none
        ∧ ((({} : IRTypeTable).createTypes kinds).2.lookup id) = none
        ∧ ((({} : IRTypeTable).createTypes kinds).2.lookupCall id).2
            = (({} : IRTypeTable).createTypes kinds).2)
    ∧ (kinds.length < 2 ^ 32 →
        0 ∉ ({} : IRTypeTable).createdIds kinds
        ∧ ((({} : IRTypeTable).createTypes kinds).2.lookupCall 0).1 = none
        ∧ ((({} : IRTypeTable).createTypes kinds).2.lookup 0) = none
        ∧ ((({} : IRTypeTable).createTypes kinds).2.lookupCall 0).2
            = (({} : IRTypeTable).createTypes kinds).2) := by
  have habs : ∀ id : IRTypeID, id ∉ ({} : IRTypeTable).createdIds kinds →
      (({} : IRTypeTable).createTypes kinds).2.types.find id = none :=
    fun id h => IRTypeTable.createTypes_find_none kinds {} id rfl h
  refine ⟨fun id h => ⟨habs id h, habs id h, rfl⟩, ?_⟩
  intro hlen
  have h0 : (0 : IRTypeID) ∉ ({} : IRTypeTable).createdIds kinds := by
    rw [IRTypeTable.createdIds_fresh kinds hlen]
    intro hmem
    have := (List.mem_range'_1.mp hmem).1
    omega
  exact ⟨h0, habs 0 h0, habs 0 h0, rfl⟩

/-- Witness of C16 (amended): after three `createType` calls (ids 1, 2, 3) neither id `7`
nor id `0` was returned; the lookup of each finds nothing and leaves the table as it
was. -/
theorem lookup_absent_id_witness :
    (7 ∉ ({} : IRTypeTable).createdIds
          [IRTypeKind.StructOrUnion, IRTypeKind.Array, IRTypeKind.Pointer]
      ∧ [IRTypeKind.StructOrUnion, IRTypeKind.Array, IRTypeKind.Pointer].length < 2 ^ 32)
    ∧ ((({} : IRTypeTable).createTypes
          [IRTypeKind.StructOrUnion, IRTypeKind.Array, IRTypeKind.Pointer]).2.lookupCall 7).1
        = none
    ∧ ((({} : IRTypeTable).createTypes
          [IRTypeKind.StructOrUnion, IRTypeKind.Array, IRTypeKind.Pointer]).2.lookupCall 0).1
        = none
    ∧ ((({} : IRTypeTable).createTypes
          [IRTypeKind.StructOrUnion, IRTypeKind.Array, IRTypeKind.Pointer]).2.lookupCall 0).2
        = (({} : IRTypeTable).createTypes
          [IRTypeKind.StructOrUnion, IRTypeKind.Array, IRTypeKind.Pointer]).2 :=
  ⟨⟨by decide, by decide⟩,
   ((lookup_absent_id [IRTypeKind.StructOrUnion, IRTypeKind.Array, IRTypeKind.Pointer]).1 7
      (by decide)).1,
   ((lookup_absent_id [IRTypeKind.StructOrUnion, IRTypeKind.Array, IRTypeKind.Pointer]).2
      (by decide)).2.1,
   ((lookup_absent_id [IRTypeKind.StructOrUnion, IRTypeKind.Array, IRTypeKind.Pointer]).2
      (by decide)).2.2.2⟩

/-! ## The loops of the oracle -/

theorem CompareVecLoop_iff {T : Type} (cmp : T → T → Bool) :
    ∀ A B : List T, A.length = B.length →
      (CompareVecLoop cmp A B = true ↔ List.Forall₂ (fun x y => cmp x y = true) A B) := by
  intro A
  induction A with
  | nil =>
    intro B h
    cases B with
    | nil => simp [CompareVecLoop]
    | cons b bs => simp at h
  | cons a as ih =>
    intro B h
    cases B with
    | nil => simp at h
    | cons b bs =>
      have h' : as.length = bs.length := by simpa using h
      simp [CompareVecLoop, ih bs h']

theorem CompareVec_iff {T : Type} (A B : List T) (cmp : T → T → Bool) :
    CompareVec A B cmp = true ↔ List.Forall₂ (fun x y => cmp x y = true) A B := by
  by_cases h : A.length = B.length
  · simp [CompareVec, h, CompareVecLoop_iff cmp A B h]
  · constructor
    · intro hc
      simp [CompareVec, h] at hc
    · intro hf
      exact absurd hf.length_eq h

theorem declaredTypesLoop_iff : ∀ A B : List IRTypeID, A.length = B.length →
    (declaredTypesLoop A B = true ↔ A = B) := by
  intro A
  induction A with
  | nil =>
    intro B h
    cases B with
    | nil => simp [declaredTypesLoop]
    | cons b bs => simp at h
  | cons a as ih =>
    intro B h
    cases B with
    | nil => simp at h
    | cons b bs =>
      have h' : as.length = bs.length := by simpa using h
      simp [declaredTypesLoop, ih bs h']

theorem attrsLoop_iff {V : Type} [BEq V] [LawfulBEq V] :
    ∀ A B : List (Nat × V), A.length = B.length → (attrsLoop A B = true ↔ A = B) := by
  intro A
  induction A with
  | nil =>
    intro B h
    cases B with
    | nil => simp [attrsLoop]
    | cons b bs => simp at h
  | cons a as ih =>
    intro B h
    cases B with
    | nil => simp at h
    | cons b bs =>
      have h' : as.length = bs.length := by simpa using h
      obtain ⟨a1, a2⟩ := a
      obtain ⟨b1, b2⟩ := b
      simp [attrsLoop, ih bs h', and_assoc]

/-- One step of the early-return chains of the oracle. -/
theorem ite_false_else_iff (p : Prop) [Decidable p] (x : Bool) :
    (if p then false else x) = true ↔ ¬ p ∧ x = true := by
  by_cases h : p <;> simp [h]

/-- A failed `!=` test of the oracle. -/
theorem not_bne_iff {α : Type} [BEq α] [LawfulBEq α] (a b : α) :
    ¬ ((a != b) = true) ↔ a = b := by
  simp

/-- A failed `!` test of the oracle. -/
theorem not_not_eq_true_iff (c : Bool) : ¬ ((!c) = true) ↔ c = true := by
  cases c <;> simp

/-! ## `EqualIRType` -/

/-- C17. `EqualIRType` on two non-null types returns `true` if and only if they agree on
kind, name, `isForwardDecl`, `isUnion`, `sizeBytes`, `pointeeType`, `ptrSizeBytes`,
`elementType`, `indexType`, on dims (same length, pairwise equal `lowerBound` and `count`)
and on fields (same length, pairwise equal name, type, `byteOffset`, `bitOffset`,
`bitSize`, `isAnonymousArm`); and replacing the two `id` fields by any values leaves the
result as it was. -/
theorem EqualIRType_iff (a b : IRType) :
    (EqualIRType (some a) (some b) = true ↔
      a.kind = b.kind ∧ a.name = b.name ∧ a.isForwardDecl = b.isForwardDecl
      ∧ a.isUnion = b.isUnion ∧ a.sizeBytes = b.sizeBytes ∧ a.pointeeType = b.pointeeType
      ∧ a.ptrSizeBytes = b.ptrSizeBytes ∧ a.elementType = b.elementType
      ∧ a.indexType = b.indexType
      ∧ (a.dims.length = b.dims.length
        ∧ List.Forall₂ (fun x y => x.lowerBound = y.lowerBound ∧ x.count = y.count)
            a.dims b.dims)
      ∧ (a.fields.length = b.fields.length
        ∧ List.Forall₂ (fun x y => x.name = y.name ∧ x.type = y.type
              ∧ x.byteOffset = y.byteOffset ∧ x.bitOffset = y.bitOffset
              ∧ x.bitSize = y.bitSize ∧ x.isAnonymousArm = y.isAnonymousArm)
            a.fields b.fields))
    ∧ ∀ i j : IRTypeID,
        EqualIRType (some { a with id := i }) (some { b with id := j })
          = EqualIRType (some a) (some b) := by
  refine ⟨?_, fun _ _ => rfl⟩
  have hd : (fun x y : IRArrayDim => (x.lowerBound == y.lowerBound && x.count == y.count) = true)
      = (fun x y => x.lowerBound = y.lowerBound ∧ x.count = y.count) := by
    funext x y
    simp
  have hf : (fun x y : IRField => (x.name == y.name && x.type == y.type
        && x.byteOffset == y.byteOffset && x.bitOffset == y.bitOffset
        && x.bitSize == y.bitSize && x.isAnonymousArm == y.isAnonymousArm) = true)
      = (fun x y => x.name = y.name ∧ x.type = y.type ∧ x.byteOffset = y.byteOffset
          ∧ x.bitOffset = y.bitOffset ∧ x.bitSize = y.bitSize
          ∧ x.isAnonymousArm = y.isAnonymousArm) := by
    funext x y
    simp [and_assoc]
  simp only [EqualIRType, ite_false_else_iff, not_bne_iff, not_not_eq_true_iff, CompareVec_iff,
    hd, hf, and_true]
  constructor
  · intro h
    obtain ⟨h1, h2, h3, h4, h5, h6, h7, h8, h9, h10, h11⟩ := h
    exact ⟨h1, h2, h3, h4, h5, h6, h7, h8, h9, ⟨h10.length_eq, h10⟩, ⟨h11.length_eq, h11⟩⟩
  · intro h
    obtain ⟨h1, h2, h3, h4, h5, h6, h7, h8, h9, h10, h11⟩ := h
    exact ⟨h1, h2, h3, h4, h5, h6, h7, h8, h9, h10.2, h11.2⟩

/-! ## `EqualDwarfNode` -/

theorem EqualDwarfNodeChildren_iff : ∀ as bs : List (Option DwarfNode),
    as.length = bs.length →
    (EqualDwarfNodeChildren as bs = true
      ↔ List.Forall₂ (fun x y => EqualDwarfNode x y = true) as bs) := by
  intro as
  induction as with
  | nil =>
    intro bs h
    cases bs with
    | nil => simp [EqualDwarfNodeChildren]
    | cons b bs => simp at h
  | cons a as ih =>
    intro bs h
    cases bs with
    | nil => simp at h
    | cons b bs =>
      have h' : as.length = bs.length := by simpa using h
      rw [EqualDwarfNodeChildren, ite_false_else_iff, not_not_eq_true_iff, ih bs h',
        List.forall₂_cons]

theorem dwarf_scrubChildren_length : ∀ as : List (Option DwarfNode),
    (DwarfNode.scrubChildren as).length = as.length := by
  intro as
  induction as with
  | nil => rfl
  | cons a as ih => rw [DwarfNode.scrubChildren, List.length_cons, List.length_cons, ih]

mutual
theorem EqualDwarfNodeBody_scrub : ∀ a b : DwarfNode,
    EqualDwarfNodeBody (DwarfNode.scrub a) (DwarfNode.scrub b) = EqualDwarfNodeBody a b
  | ⟨ta, sa, ua, pa, ca, oa⟩, ⟨tb, sb, ub, pb, cb, ob⟩ => by
    simp only [DwarfNode.scrub, EqualDwarfNodeBody, dwarf_scrubChildren_length]
    rw [EqualDwarfNodeChildren_scrub ca cb]
theorem EqualDwarfNode_scrub : ∀ a b : Option DwarfNode,
    EqualDwarfNode (DwarfNode.scrubPtr a) (DwarfNode.scrubPtr b) = EqualDwarfNode a b
  | some a, some b => by
    simp only [DwarfNode.scrubPtr, EqualDwarfNode]
    exact EqualDwarfNodeBody_scrub a b
  | none, none => rfl
  | some _, none => rfl
  | none, some _ => rfl
theorem EqualDwarfNodeChildren_scrub : ∀ as bs : List (Option DwarfNode),
    EqualDwarfNodeChildren (DwarfNode.scrubChildren as) (DwarfNode.scrubChildren bs)
      = EqualDwarfNodeChildren as bs
  | [], [] => rfl
  | [], _ :: _ => rfl
  | _ :: _, [] => rfl
  | a :: as, b :: bs => by
    simp only [DwarfNode.scrubChildren, EqualDwarfNodeChildren]
    rw [EqualDwarfNode_scrub a b, EqualDwarfNodeChildren_scrub as bs]
end

/-- C19. `EqualDwarfNode` on two non-null format-A nodes returns `true` if and only if
they have the same tag, the same string attributes and the same integer attributes (as
lists: same length, same code and value at each index), and the same number of children
that are pairwise `EqualDwarfNode`-equal in order; and two pairs of trees that differ only
in `originalDieOffset` and `parent` values, at any depth, get the same result. -/
theorem EqualDwarfNode_iff (a b : DwarfNode) :
    (EqualDwarfNode (some a) (some b) = true ↔
      a.tag = b.tag ∧ a.attrsStr = b.attrsStr ∧ a.attrsU64 = b.attrsU64
      ∧ a.children.length = b.children.length
      ∧ List.Forall₂ (fun x y => EqualDwarfNode x y = true) a.children b.children)
    ∧ ∀ a' b' : DwarfNode, a'.scrub = a.scrub → b'.scrub = b.scrub →
        EqualDwarfNode (some a') (some b') = EqualDwarfNode (some a) (some b) := by
  constructor
  · obtain ⟨ta, sa, ua, pa, ca, oa⟩ := a
    obtain ⟨tb, sb, ub, pb, cb, ob⟩ := b
    simp only [EqualDwarfNode, EqualDwarfNodeBody, ite_false_else_iff, not_bne_iff,
      not_not_eq_true_iff]
    constructor
    · rintro ⟨h1, h2, h3, h4, h5, h6, h7⟩
      exact ⟨h1, (attrsLoop_iff sa sb h2).mp h4, (attrsLoop_iff ua ub h3).mp h5, h6,
        (EqualDwarfNodeChildren_iff ca cb h6).mp h7⟩
    · rintro ⟨h1, h2, h3, h4, h5⟩
      exact ⟨h1, congrArg List.length h2, congrArg List.length h3,
        (attrsLoop_iff sa sb (congrArg List.length h2)).mpr h2,
        (attrsLoop_iff ua ub (congrArg List.length h3)).mpr h3, h4,
        (EqualDwarfNodeChildren_iff ca cb h4).mpr h5⟩
  · intro a' b' ha hb
    have h1 := EqualDwarfNode_scrub (some a') (some b')
    have h2 := EqualDwarfNode_scrub (some a) (some b)
    simp only [DwarfNode.scrubPtr] at h1 h2
    rw [← h1, ← h2, ha, hb]

/-- Witness of C19: a compile unit with one child, and two copies of it with other DIE
offsets and parent handles at both levels; the copies compare equal as the original
does with itself. -/
theorem EqualDwarfNode_iff_witness :
    (dwarfSampleA.scrub = dwarfSample.scrub ∧ dwarfSampleB.scrub = dwarfSample.scrub)
      ∧ EqualDwarfNode (some dwarfSampleA) (some dwarfSampleB)
          = EqualDwarfNode (some dwarfSample) (some dwarfSample)
      ∧ EqualDwarfNode (some dwarfSample) (some dwarfSample) = true :=
  ⟨⟨rfl, rfl⟩, (EqualDwarfNode_iff dwarfSample dwarfSample).2 dwarfSampleA dwarfSampleB rfl rfl,
   by decide⟩

/-! ## `EqualPdbNode` -/

theorem EqualPdbNodeChildren_iff : ∀ as bs : List (Option PdbNode),
    as.length = bs.length →
    (EqualPdbNodeChildren as bs = true
      ↔ List.Forall₂ (fun x y => EqualPdbNode x y = true) as bs) := by
  intro as
  induction as with
  | nil =>
    intro bs h
    cases bs with
    | nil => simp [EqualPdbNodeChildren]
    | cons b bs => simp at h
  | cons a as ih =>
    intro bs h
    cases bs with
    | nil => simp at h
    | cons b bs =>
      have h' : as.length = bs.length := by simpa using h
      rw [EqualPdbNodeChildren, ite_false_else_iff, not_not_eq_true_iff, ih bs h',
        List.forall₂_cons]

theorem pdb_scrubChildren_length : ∀ as : List (Option PdbNode),
    (PdbNode.scrubChildren as).length = as.length := by
  intro as
  induction as with
  | nil => rfl
  | cons a as ih => rw [PdbNode.scrubChildren, List.length_cons, List.length_cons, ih]

mutual
theorem EqualPdbNodeBody_scrub : ∀ a b : PdbNode,
    EqualPdbNodeBody (PdbNode.scrub a) (PdbNode.scrub b) = EqualPdbNodeBody a b
  | ⟨ka, ya, pa, ca, ia, na, ua⟩, ⟨kb, yb, pb, cb, ib, nb, ub⟩ => by
    simp only [PdbNode.scrub, EqualPdbNodeBody, pdb_scrubChildren_length]
    rw [EqualPdbNodeChildren_scrub ca cb]
theorem EqualPdbNode_scrub : ∀ a b : Option PdbNode,
    EqualPdbNode (PdbNode.scrubPtr a) (PdbNode.scrubPtr b) = EqualPdbNode a b
  | some a, some b => by
    simp only [PdbNode.scrubPtr, EqualPdbNode]
    exact EqualPdbNodeBody_scrub a b
  | none, none => rfl
  | some _, none => rfl
  | none, some _ => rfl
theorem EqualPdbNodeChildren_scrub : ∀ as bs : List (Option PdbNode),
    EqualPdbNodeChildren (PdbNode.scrubChildren as) (PdbNode.scrubChildren bs)
      = EqualPdbNodeChildren as bs
  | [], [] => rfl
  | [], _ :: _ => rfl
  | _ :: _, [] => rfl
  | a :: as, b :: bs => by
    simp only [PdbNode.scrubChildren, EqualPdbNodeChildren]
    rw [EqualPdbNode_scrub a b, EqualPdbNodeChildren_scrub as bs]
end

/-- C20. `EqualPdbNode` on two non-null format-B trees returns `true` if and only if the
roots have equal `leafKind`, `prettyName` and `uniqueName` and the same number of children
that are pairwise `EqualPdbNode`-equal in order; and two pairs of trees that differ only in
payload bytes, type indices and `parent` values, at any depth, get the same result. -/
theorem EqualPdbNode_iff (a b : PdbNode) :
    (EqualPdbNode (some a) (some b) = true ↔
      a.leafKind = b.leafKind ∧ a.prettyName = b.prettyName ∧ a.uniqueName = b.uniqueName
      ∧ a.children.length = b.children.length
      ∧ List.Forall₂ (fun x y => EqualPdbNode x y = true) a.children b.children)
    ∧ ∀ a' b' : PdbNode, a'.scrub = a.scrub → b'.scrub = b.scrub →
        EqualPdbNode (some a') (some b') = EqualPdbNode (some a) (some b) := by
  constructor
  · obtain ⟨ka, ya, pa, ca, ia, na, ua⟩ := a
    obtain ⟨kb, yb, pb, cb, ib, nb, ub⟩ := b
    simp only [EqualPdbNode, EqualPdbNodeBody, ite_false_else_iff, not_bne_iff]
    constructor
    · rintro ⟨h1, h2, h3, h4, h5⟩
      exact ⟨h1, h2, h3, h4, (EqualPdbNodeChildren_iff ca cb h4).mp h5⟩
    · rintro ⟨h1, h2, h3, h4, h5⟩
      exact ⟨h1, h2, h3, h4, (EqualPdbNodeChildren_iff ca cb h4).mpr h5⟩
  · intro a' b' ha hb
    have h1 := EqualPdbNode_scrub (some a') (some b')
    have h2 := EqualPdbNode_scrub (some a) (some b)
    simp only [PdbNode.scrubPtr] at h1 h2
    rw [← h1, ← h2, ha, hb]

/-- Witness of C20: a root with one child, and two copies of it with other payload bytes
and type indices at both levels; the copies compare equal as the original does with
itself. -/
theorem EqualPdbNode_iff_witness :
    (pdbSampleA.scrub = pdbSample.scrub ∧ pdbSampleB.scrub = pdbSample.scrub)
      ∧ EqualPdbNode (some pdbSampleA) (some pdbSampleB)
          = EqualPdbNode (some pdbSample) (some pdbSample)
      ∧ EqualPdbNode (some pdbSample) (some pdbSample) = true :=
  ⟨⟨rfl, rfl⟩, (EqualPdbNode_iff pdbSample pdbSample).2 pdbSampleA pdbSampleB rfl rfl,
   by decide⟩

/-! ## `EqualIRScope` -/

theorem EqualIRScopeChildren_iff : ∀ as bs : List (Option IRScope),
    as.length = bs.length →
    (EqualIRScopeChildren as bs = true
      ↔ List.Forall₂ (fun x y => EqualIRScope x y = true) as bs) := by
  intro as
  induction as with
  | nil =>
    intro bs h
    cases bs with
    | nil => simp [EqualIRScopeChildren]
    | cons b bs => simp at h
  | cons a as ih =>
    intro bs h
    cases bs with
    | nil => simp at h
    | cons b bs =>
      have h' : as.length = bs.length := by simpa using h
      rw [EqualIRScopeChildren, ite_false_else_iff, not_not_eq_true_iff, ih bs h',
        List.forall₂_cons]

theorem scope_scrubChildren_length : ∀ as : List (Option IRScope),
    (IRScope.scrubChildren as).length = as.length := by
  intro as
  induction as with
  | nil => rfl
  | cons a as ih => rw [IRScope.scrubChildren, List.length_cons, List.length_cons, ih]

mutual
theorem EqualIRScopeBody_scrub : ∀ a b : IRScope,
    EqualIRScopeBody (IRScope.scrub a) (IRScope.scrub b) = EqualIRScopeBody a b
  | ⟨ka, na, pa, ca, ta, sa⟩, ⟨kb, nb, pb, cb, tb, sb⟩ => by
    simp only [IRScope.scrub, EqualIRScopeBody, scope_scrubChildren_length]
    rw [EqualIRScopeChildren_scrub ca cb]
theorem EqualIRScope_scrub : ∀ a b : Option IRScope,
    EqualIRScope (IRScope.scrubPtr a) (IRScope.scrubPtr b) = EqualIRScope a b
  | some a, some b => by
    simp only [IRScope.scrubPtr, EqualIRScope]
    exact EqualIRScopeBody_scrub a b
  | none, none => rfl
  | some _, none => rfl
  | none, some _ => rfl
theorem EqualIRScopeChildren_scrub : ∀ as bs : List (Option IRScope),
    EqualIRScopeChildren (IRScope.scrubChildren as) (IRScope.scrubChildren bs)
      = EqualIRScopeChildren as bs
  | [], [] => rfl
  | [], _ :: _ => rfl
  | _ :: _, [] => rfl
  | a :: as, b :: bs => by
    simp only [IRScope.scrubChildren, EqualIRScopeChildren]
    rw [EqualIRScope_scrub a b, EqualIRScopeChildren_scrub as bs]
end

/-- C18. `EqualIRScope` on two non-null scopes returns `true` if and only if they have
the same kind and name, the same `declaredTypes` sequence, `declaredSymbols` of the same
length that agree pairwise on name, kind and type, and the same number of children that
are pairwise `EqualIRScope`-equal in order; and two pairs of scope trees that differ only
in `parent` values, at any depth, get the same result. -/
theorem EqualIRScope_iff (a b : IRScope) :
    (EqualIRScope (some a) (some b) = true ↔
      a.kind = b.kind ∧ a.name = b.name ∧ a.declaredTypes = b.declaredTypes
      ∧ (a.declaredSymbols.length = b.declaredSymbols.length
        ∧ List.Forall₂ (fun x y => x.name = y.name ∧ x.kind = y.kind ∧ x.type = y.type)
            a.declaredSymbols b.declaredSymbols)
      ∧ a.children.length = b.children.length
      ∧ List.Forall₂ (fun x y => EqualIRScope x y = true) a.children b.children)
    ∧ ∀ a' b' : IRScope, a'.scrub = a.scrub → b'.scrub = b.scrub →
        EqualIRScope (some a') (some b') = EqualIRScope (some a) (some b) := by
  constructor
  · obtain ⟨ka, na, pa, ca, ta, sa⟩ := a
    obtain ⟨kb, nb, pb, cb, tb, sb⟩ := b
    have hs : (fun x y : IRSymbol => EqualIRSymbol x y = true)
        = (fun x y => x.name = y.name ∧ x.kind = y.kind ∧ x.type = y.type) := by
      funext x y
      simp [EqualIRSymbol, and_assoc]
    simp only [EqualIRScope, EqualIRScopeBody, ite_false_else_iff, not_bne_iff,
      not_not_eq_true_iff, CompareVec_iff, hs]
    constructor
    · rintro ⟨h1, h2, h3, h4, h5, h6, h7⟩
      exact ⟨h1, h2, (declaredTypesLoop_iff ta tb h3).mp h4, ⟨h5.length_eq, h5⟩, h6,
        (EqualIRScopeChildren_iff ca cb h6).mp h7⟩
    · rintro ⟨h1, h2, h3, h4, h5, h6⟩
      exact ⟨h1, h2, congrArg List.length h3,
        (declaredTypesLoop_iff ta tb (congrArg List.length h3)).mpr h3, h4.2, h5,
        (EqualIRScopeChildren_iff ca cb h5).mpr h6⟩
  · intro a' b' ha hb
    have h1 := EqualIRScope_scrub (some a') (some b')
    have h2 := EqualIRScope_scrub (some a) (some b)
    simp only [IRScope.scrubPtr] at h1 h2
    rw [← h1, ← h2, ha, hb]

/-- Witness of C18: a compile unit with one child namespace, and two copies of it with
other `parent` handles at both levels; the copies compare equal as the original does with
itself. -/
theorem EqualIRScope_iff_witness :
    (scopeSampleA.scrub = scopeSample.scrub ∧ scopeSampleB.scrub = scopeSample.scrub)
      ∧ EqualIRScope (some scopeSampleA) (some scopeSampleB)
          = EqualIRScope (some scopeSample) (some scopeSample)
      ∧ EqualIRScope (some scopeSample) (some scopeSample) = true :=
  ⟨⟨rfl, rfl⟩, (EqualIRScope_iff scopeSample scopeSample).2 scopeSampleA scopeSampleB rfl rfl,
   by decide⟩

/-! ## The type oracle across tables -/

/-- C21 (counterexample). The Widget compile unit is read into a fresh
table and into a table on which `createType` was called once. The first read creates type
`1` with the field `self` of type `1`, the second creates type `2` with the field `self`
of type `2`, and `EqualIRType` reports the two types different: it compares the `type` id
of the fields. -/
theorem EqualIRType_depends_on_allocated_ids :
    ((DwarfReader.readFromModel widgetCU {} {}).typeTable.lookup 1).map
        (fun t => (t.name, t.fields.map (fun f => (f.name, f.type))))
      = some ("Widget", [("self", 1)])
    ∧ ((DwarfReader.readFromModel widgetCU
          (({} : IRTypeTable).createType IRTypeKind.Unknown).2 {}).typeTable.lookup 2).map
        (fun t => (t.name, t.fields.map (fun f => (f.name, f.type))))
      = some ("Widget", [("self", 2)])
    ∧ EqualIRType ((DwarfReader.readFromModel widgetCU {} {}).typeTable.lookup 1)
        ((DwarfReader.readFromModel widgetCU
          (({} : IRTypeTable).createType IRTypeKind.Unknown).2 {}).typeTable.lookup 2)
      = false :=
  ⟨by decide, by decide, by decide⟩

/-! ## The root node of a translation -/

/-- C22. For every scope pointer (null included), table and maps,
`PdbToDwarf::translate` returns a non-null root whose tag is `0x11` and
`DwarfToPdb::translate` returns a non-null root whose `leafKind` is `0x1234` and whose
`prettyName` is `"PdbRootFromDwarf"`; both roots have no parent. -/
theorem translate_root_node (rootScope : Option IRScope) (typeTable : IRTypeTable)
    (maps : IRMaps) :
    (∃ cu, (PdbToDwarf.translate rootScope typeTable maps).ret = some cu
        ∧ cu.tag = 0x11 ∧ cu.parent = none)
      ∧ (∃ pdbRoot, (DwarfToPdb.translate rootScope typeTable maps).ret = some pdbRoot
        ∧ pdbRoot.leafKind = 0x1234 ∧ pdbRoot.prettyName = "PdbRootFromDwarf"
        ∧ pdbRoot.parent = none) :=
  ⟨⟨_, rfl, rfl, rfl⟩, ⟨_, rfl, rfl, rfl, rfl⟩⟩

/-! ## What `PdbReader::readFromModel` builds -/

/-- C23. For every `PdbNode` model `m`, on a fresh type table, the scope that
`PdbReader::readFromModel` returns is named `"fromPdbModel"` and declares exactly one type
id; the table then holds exactly one type `t`, stored under that id, of kind
`StructOrUnion`, `isUnion` true, `sizeBytes` 8, named `m.prettyName` when that is
non-empty and `"AnonFromPdbNode"` otherwise, with exactly one field, named `"alt0"`, at
`byteOffset` 0, whose type id is `t.id`; the scope has exactly one symbol, named
`"symFromPdb"`, of kind `Variable` and of type `t.id`. -/
theorem pdb_readFromModel_postcondition (m : PdbNode) (maps : IRMaps) :
    ∃ root t,
      (PdbReader.readFromModel m {} maps).typeTable.types.entries = [(t.id, t)]
      ∧ (PdbReader.readFromModel m {} maps).typeTable.lookup t.id = some t
      ∧ (PdbReader.readFromModel m {} maps).ret = some root
      ∧ root.name = "fromPdbModel"
      ∧ root.declaredTypes = [t.id]
      ∧ t.kind = IRTypeKind.StructOrUnion ∧ t.isUnion = true ∧ t.sizeBytes = 8
      ∧ (m.prettyName ≠ "" → t.name = m.prettyName)
      ∧ (m.prettyName = "" → t.name = "AnonFromPdbNode")
      ∧ (∃ f, t.fields = [f] ∧ f.name = "alt0" ∧ f.byteOffset = 0 ∧ f.type = t.id)
      ∧ (∃ s, root.declaredSymbols = [s] ∧ s.name = "symFromPdb"
          ∧ s.kind = IRSymbolKind.Variable ∧ s.type = t.id) := by
  refine ⟨{ kind := IRScopeKind.CompileUnit, name := "fromPdbModel", children := [],
            declaredTypes := [1],
            declaredSymbols := [{ name := "symFromPdb", kind := IRSymbolKind.Variable,
                                  type := 1 }] },
          { id := 1, kind := IRTypeKind.StructOrUnion, isUnion := true, sizeBytes := 8,
            name := if m.prettyName = "" then "AnonFromPdbNode" else m.prettyName,
            fields := [{ name := "alt0", type := 1 }] }, ?_⟩
  refine ⟨rfl, ?_, rfl, rfl, rfl, rfl, rfl, rfl, ?_, ?_, ⟨_, rfl, rfl, rfl, rfl⟩,
    ⟨_, rfl, rfl, rfl, rfl⟩⟩
  · simp [PdbReader.readFromModel, IRTypeTable.createType, IRTypeTable.store,
      IRTypeTable.lookup, UMap.find, UMap.assign, UMap.assignIn, UMap.findIn]
  · intro h
    simp [h]
  · intro h
    simp [h]

/-- Witness of C23: a model with the pretty name `"Widget"` and a model with none. -/
theorem pdb_readFromModel_postcondition_witness :
    (namedPdbNode.prettyName ≠ ""
      ∧ ((PdbReader.readFromModel namedPdbNode {} {}).typeTable.lookup 1).map IRType.name
          = some "Widget")
    ∧ ((({ children := [] } : PdbNode).prettyName = "")
      ∧ ((PdbReader.readFromModel { children := [] } {} {}).typeTable.lookup 1).map
          IRType.name = some "AnonFromPdbNode") := by
  obtain ⟨_, t, he, hl, _, _, _, _, _, _, hn, _, _, _⟩ :=
    pdb_readFromModel_postcondition namedPdbNode {}
  obtain ⟨_, u, hf, hk, _, _, _, _, _, _, _, hm, _, _⟩ :=
    pdb_readFromModel_postcondition { children := [] } {}
  have ht : t.id = 1 := by
    have := congrArg (fun l => l.map Prod.fst) he
    simpa [PdbReader.readFromModel, IRTypeTable.createType, IRTypeTable.store, UMap.assign,
      UMap.assignIn] using this.symm
  have hu : u.id = 1 := by
    have := congrArg (fun l => l.map Prod.fst) hf
    simpa [PdbReader.readFromModel, IRTypeTable.createType, IRTypeTable.store, UMap.assign,
      UMap.assignIn] using this.symm
  rw [ht] at hl
  rw [hu] at hk
  refine ⟨⟨by decide, ?_⟩, ⟨rfl, ?_⟩⟩
  · rw [hl, Option.map_some', hn (by decide)]
    rfl
  · rw [hk, Option.map_some', hm rfl]

/-! ## The id counter along a sequence of calls -/

/-- Two 32-bit increments in a row. -/
theorem add_mod_add_mod (n c r : Nat) :
    ((n + c) % 2 ^ 32 + r) % 2 ^ 32 = (n + (c + r)) % 2 ^ 32 := by
  omega

namespace Session

theorem buildStep_nextID (s : Session) (op : BuildOp) (h32 : s.typeTable.nextID < 2 ^ 32) :
    (s.buildStep op).typeTable.nextID = (s.typeTable.nextID + op.creates) % 2 ^ 32 := by
  cases op with
  | createType k => rfl
  | call op =>
    cases op with
    | dwarfReadObject path => rfl
    | dwarfReadFromModel model => rfl
    | pdbReadPdb path => rfl
    | pdbReadFromModel model => rfl
    | dwarfToPdbTranslate rootScope => exact (Nat.mod_eq_of_lt h32).symm
    | pdbToDwarfTranslate rootScope => exact (Nat.mod_eq_of_lt h32).symm

/-- After a sequence of calls the counter stands at the start value plus the number of
types created, reduced to 32 bits. -/
theorem build_nextID (ops : List BuildOp) : ∀ s : Session, s.typeTable.nextID < 2 ^ 32 →
    (s.build ops).typeTable.nextID = (s.typeTable.nextID + typesCreated ops) % 2 ^ 32 := by
  induction ops with
  | nil => intro s h32; exact (Nat.mod_eq_of_lt h32).symm
  | cons op ops ih =>
    intro s h32
    have hstep := buildStep_nextID s op h32
    have hlt : (s.buildStep op).typeTable.nextID < 2 ^ 32 := by
      rw [hstep]
      exact Nat.mod_lt _ (by norm_num)
    show ((s.buildStep op).build ops).typeTable.nextID = _
    rw [ih (s.buildStep op) hlt, hstep]
    exact add_mod_add_mod _ _ _

theorem typesCreated_replicate (k : IRTypeKind) (n : Nat) :
    typesCreated (List.replicate n (BuildOp.createType k)) = n := by
  induction n with
  | zero => rfl
  | succ n ih =>
    rw [List.replicate_succ, typesCreated, ih]
    show 1 + n = n + 1
    omega

end Session

namespace IRTypeTable

/-- After a sequence of `createType` calls the counter stands at the start value plus the
number of calls, reduced to 32 bits. -/
theorem createTypes_nextID (kinds : List IRTypeKind) : ∀ tbl : IRTypeTable,
    tbl.nextID < 2 ^ 32 →
    (tbl.createTypes kinds).2.nextID = (tbl.nextID + kinds.length) % 2 ^ 32 := by
  induction kinds with
  | nil => intro tbl h32; exact (Nat.mod_eq_of_lt h32).symm
  | cons k ks ih =>
    intro tbl h32
    show ((tbl.createType k).2.createTypes ks).2.nextID = _
    rw [ih (tbl.createType k).2 (Nat.mod_lt _ (by norm_num)), createType_nextID,
      List.length_cons, Nat.add_comm ks.length 1]
    exact add_mod_add_mod _ _ _

end IRTypeTable

/-! ## Referential integrity after a read -/

/-- The ids that the outcome of `DwarfReader::readFromModel` mentions are all the id the
table handed out. -/
theorem dwarf_readFromModel_mentionedIds (model : DwarfNode) (typeTable : IRTypeTable)
    (maps : IRMaps) :
    (DwarfReader.readFromModel model typeTable maps).mentionedIds
      = [typeTable.nextID, typeTable.nextID, typeTable.nextID] := by
  have hl : (DwarfReader.readFromModel model typeTable maps).typeTable.lookup typeTable.nextID
      = some _ := UMap.find_assign_self _ _ _
  simp only [Outcome.mentionedIds]
  show [typeTable.nextID] ++ [typeTable.nextID]
      ++ [typeTable.nextID].flatMap (fun id =>
          match (DwarfReader.readFromModel model typeTable maps).typeTable.lookup id with
          | none => []
          | some t => t.fields.map IRField.type) = _
  rw [List.flatMap_singleton, hl]
  rfl

/-- The ids that the outcome of `PdbReader::readFromModel` mentions are all the id the
table handed out. -/
theorem pdb_readFromModel_mentionedIds (model : PdbNode) (typeTable : IRTypeTable)
    (maps : IRMaps) :
    (PdbReader.readFromModel model typeTable maps).mentionedIds
      = [typeTable.nextID, typeTable.nextID, typeTable.nextID] := by
  have hl : (PdbReader.readFromModel model typeTable maps).typeTable.lookup typeTable.nextID
      = some _ := UMap.find_assign_self _ _ _
  simp only [Outcome.mentionedIds]
  show [typeTable.nextID] ++ [typeTable.nextID]
      ++ [typeTable.nextID].flatMap (fun id =>
          match (PdbReader.readFromModel model typeTable maps).typeTable.lookup id with
          | none => []
          | some t => t.fields.map IRField.type) = _
  rw [List.flatMap_singleton, hl]
  rfl

/-- C24 (counterexample). After `2 ^ 32 - 1` `createType` calls on a fresh table the
counter has wrapped to `0`, and a `DwarfReader::readFromModel` on that table creates type
id `0`: the scope's declared type, its symbol's type and the `self` field type are all
`0`. -/
theorem readFromModel_mentions_id_zero_after_wrap :
    (DwarfReader.readFromModel emptyCU
        (Session.build {} (List.replicate (2 ^ 32 - 1)
          (BuildOp.createType IRTypeKind.Unknown))).typeTable
        (Session.build {} (List.replicate (2 ^ 32 - 1)
          (BuildOp.createType IRTypeKind.Unknown))).maps).mentionedIds = [0, 0, 0] := by
  rw [dwarf_readFromModel_mentionedIds, Session.build_nextID _ {} (by decide),
    Session.typesCreated_replicate]
  rfl

/-- C24 (amended). For every model and every table reached from a fresh one by
`createType`, reader and translate calls, after `readFromModel` (either format) every id
that the returned scope mentions (each entry of `declaredTypes`, each symbol's type) and
every field type of the type it created resolves through `lookup` to a type stored in the
table the read left; and if the calls before the read created fewer than `2 ^ 32 - 1`
types, none of these ids is `0`. -/
theorem readFromModel_referential_integrity (ops : List BuildOp) (dm : DwarfNode)
    (pm : PdbNode) :
    (∀ id ∈ (DwarfReader.readFromModel dm (Session.build {} ops).typeTable
          (Session.build {} ops).maps).mentionedIds,
        ((DwarfReader.readFromModel dm (Session.build {} ops).typeTable
          (Session.build {} ops).maps).typeTable.lookup id).isSome = true
        ∧ (Session.typesCreated ops + 1 < 2 ^ 32 → id ≠ 0))
    ∧ (∀ id ∈ (PdbReader.readFromModel pm (Session.build {} ops).typeTable
          (Session.build {} ops).maps).mentionedIds,
        ((PdbReader.readFromModel pm (Session.build {} ops).typeTable
          (Session.build {} ops).maps).typeTable.lookup id).isSome = true
        ∧ (Session.typesCreated ops + 1 < 2 ^ 32 → id ≠ 0)) := by
  have hnext := Session.build_nextID ops {} (by decide)
  have harith : ∀ c : Nat, c + 1 < 2 ^ 32 → (1 + c) % 2 ^ 32 ≠ 0 := by
    intro c hc
    omega
  have hnz : Session.typesCreated ops + 1 < 2 ^ 32 →
      (Session.build {} ops).typeTable.nextID ≠ 0 := by
    intro hc
    rw [hnext]
    exact harith _ hc
  constructor
  · intro id hid
    rw [dwarf_readFromModel_mentionedIds] at hid
    have hid' : id = (Session.build {} ops).typeTable.nextID := by
      simpa using hid
    subst hid'
    refine ⟨?_, hnz⟩
    show ((UMap.assign _ _ _).find _).isSome = true
    rw [UMap.find_assign_self]
    rfl
  · intro id hid
    rw [pdb_readFromModel_mentionedIds] at hid
    have hid' : id = (Session.build {} ops).typeTable.nextID := by
      simpa using hid
    subst hid'
    refine ⟨?_, hnz⟩
    show ((UMap.assign _ _ _).find _).isSome = true
    rw [UMap.find_assign_self]
    rfl

/-- Witness of C24 (amended): after a `createType`, two reads and a translation, a read of
the Widget compile unit mentions id `4` only, which is stored and is not `0`. -/
theorem readFromModel_referential_integrity_witness :
    (4 ∈ (DwarfReader.readFromModel widgetCU (Session.build {} sampleBuild).typeTable
          (Session.build {} sampleBuild).maps).mentionedIds
      ∧ Session.typesCreated sampleBuild + 1 < 2 ^ 32)
    ∧ ((DwarfReader.readFromModel widgetCU (Session.build {} sampleBuild).typeTable
          (Session.build {} sampleBuild).maps).typeTable.lookup 4).isSome = true
    ∧ 4 ≠ 0 :=
  ⟨⟨by decide, by decide⟩,
   ((readFromModel_referential_integrity sampleBuild widgetCU { children := [] }).1 4
      (by decide)).1,
   ((readFromModel_referential_integrity sampleBuild widgetCU { children := [] }).1 4
      (by decide)).2 (by decide)⟩

/-! ## `createType` and the types created before -/

namespace IRTypeTable

theorem createTypes_cons_snd (tbl : IRTypeTable) (k : IRTypeKind) (ks : List IRTypeKind) :
    (tbl.createTypes (k :: ks)).2 = ((tbl.createType k).2.createTypes ks).2 := rfl

/-- Right after `createType(k)` the id it handed out is stored with a type of kind `k`
and an empty body. -/
theorem createType_lookup_nextID (tbl : IRTypeTable) (k : IRTypeKind) :
    (tbl.createType k).2.lookup tbl.nextID = some { id := tbl.nextID, kind := k } :=
  UMap.find_assign_self _ _ _

end IRTypeTable

/-- C25 (counterexample). After `2 ^ 32` `createType(Unknown)` calls on a fresh table the
first of which returned id `1`, `lookup(1)` returns the type of kind `Unknown` created
first; the counter has wrapped to `1`, and one more `createType(StructOrUnion)` replaces
that entry: `lookup(1)` then returns a type of kind `StructOrUnion`. -/
theorem createType_overwrites_after_wrap :
    (({} : IRTypeTable).createdIds
        (IRTypeKind.Unknown :: List.replicate (2 ^ 32 - 1) IRTypeKind.Unknown))[0]? = some 1
    ∧ (({} : IRTypeTable).createTypes
        (IRTypeKind.Unknown :: List.replicate (2 ^ 32 - 1) IRTypeKind.Unknown)).2.lookup 1
      = some { id := 1, kind := IRTypeKind.Unknown }
    ∧ ((({} : IRTypeTable).createTypes
        (IRTypeKind.Unknown :: List.replicate (2 ^ 32 - 1) IRTypeKind.Unknown)).2.createType
          IRTypeKind.StructOrUnion).2.lookup 1
      = some { id := 1, kind := IRTypeKind.StructOrUnion } := by
  have hlen : (List.replicate (2 ^ 32 - 1) IRTypeKind.Unknown).length = 2 ^ 32 - 1 :=
    List.length_replicate _ _
  have hnot : (1 : IRTypeID) ∉ (({} : IRTypeTable).createType IRTypeKind.Unknown).2.createdIds
      (List.replicate (2 ^ 32 - 1) IRTypeKind.Unknown) := by
    intro hmem
    obtain ⟨i, hi⟩ := List.mem_iff_getElem?.mp hmem
    have hil : i < 2 ^ 32 - 1 := by
      by_contra hge
      rw [List.getElem?_eq_none (by rw [IRTypeTable.createdIds_length, hlen]; omega)] at hi
      exact absurd hi (by simp)
    rw [IRTypeTable.createdIds_getElem? _ _ i (by decide) (by rw [hlen]; exact hil)] at hi
    have h2 : ((2 : Nat) + i) % 2 ^ 32 = 1 := Option.some.inj hi
    omega
  have hnext : (({} : IRTypeTable).createTypes
      (IRTypeKind.Unknown :: List.replicate (2 ^ 32 - 1) IRTypeKind.Unknown)).2.nextID = 1 := by
    rw [IRTypeTable.createTypes_nextID _ {} (by decide), List.length_cons, hlen]
    show (1 + (2 ^ 32 - 1 + 1)) % 2 ^ 32 = 1
    norm_num
  refine ⟨?_, ?_, ?_⟩
  · rw [IRTypeTable.createdIds_cons, List.getElem?_cons_zero]
  · rw [IRTypeTable.lookup, IRTypeTable.createTypes_cons_snd,
      IRTypeTable.createTypes_find_of_not_mem _ _ 1 hnot]
    rfl
  · have h := IRTypeTable.createType_lookup_nextID (({} : IRTypeTable).createTypes
      (IRTypeKind.Unknown :: List.replicate (2 ^ 32 - 1) IRTypeKind.Unknown)).2
      IRTypeKind.StructOrUnion
    rw [hnext] at h
    exact h

/-- C25 (amended). For every table reached from a fresh one by fewer than `2 ^ 32`
`createType` calls and every id returned by one of those calls, `lookup(id)` returns a
type, and after a further `createType(k)` it returns that same type, unchanged. -/
theorem createType_preserves_earlier_types (kinds : List IRTypeKind) (k : IRTypeKind)
    (id : IRTypeID) (hlen : kinds.length < 2 ^ 32)
    (hid : id ∈ ({} : IRTypeTable).createdIds kinds) :
    ∃ t, (({} : IRTypeTable).createTypes kinds).2.lookup id = some t
      ∧ ((({} : IRTypeTable).createTypes kinds).2.createType k).2.lookup id = some t := by
  obtain ⟨t, ht⟩ := Option.isSome_iff_exists.mp
    (IRTypeTable.createTypes_find_isSome kinds {} id hid)
  refine ⟨t, ht, ?_⟩
  have hnext := IRTypeTable.createTypes_nextID kinds {} (by decide)
  rw [IRTypeTable.createdIds_fresh kinds hlen] at hid
  have hrange := List.mem_range'_1.mp hid
  have harith : ∀ n i : Nat, n < 2 ^ 32 → 1 ≤ i → i < 1 + n → i ≠ (1 + n) % 2 ^ 32 := by
    intro n i hn h1 h2
    omega
  have hne : id ≠ (({} : IRTypeTable).createTypes kinds).2.nextID := by
    rw [hnext]
    exact harith kinds.length id hlen hrange.1 hrange.2
  show (UMap.assign _ _ _).find id = some t
  rw [UMap.find_assign_of_ne _ _ _ _ hne]
  exact ht

/-- Witness of C25 (amended): after three `createType` calls, a fourth leaves the type
stored under id `2` as it was. -/
theorem createType_preserves_earlier_types_witness :
    ([IRTypeKind.StructOrUnion, IRTypeKind.Array, IRTypeKind.Pointer].length < 2 ^ 32
      ∧ 2 ∈ ({} : IRTypeTable).createdIds
          [IRTypeKind.StructOrUnion, IRTypeKind.Array, IRTypeKind.Pointer])
    ∧ ∃ t, (({} : IRTypeTable).createTypes
          [IRTypeKind.StructOrUnion, IRTypeKind.Array, IRTypeKind.Pointer]).2.lookup 2 = some t
      ∧ ((({} : IRTypeTable).createTypes
          [IRTypeKind.StructOrUnion, IRTypeKind.Array, IRTypeKind.Pointer]).2.createType
            IRTypeKind.Unknown).2.lookup 2 = some t :=
  ⟨⟨by decide, by decide⟩,
   createType_preserves_earlier_types
     [IRTypeKind.StructOrUnion, IRTypeKind.Array, IRTypeKind.Pointer] IRTypeKind.Unknown 2
     (by decide) (by decide)⟩

/-- The type `DwarfReader::readFromModel` leaves under the id the table handed out. -/
theorem dwarf_readFromModel_lookup (model : DwarfNode) (typeTable : IRTypeTable)
    (maps : IRMaps) :
    (DwarfReader.readFromModel model typeTable maps).typeTable.lookup typeTable.nextID
      = some { id := typeTable.nextID, kind := IRTypeKind.StructOrUnion, sizeBytes := 16,
               name := match model.attrsStr with
                       | [] => "AnonFromDwarfNode"
                       | a :: _ => a.2,
               fields := [{ name := "self", type := typeTable.nextID }] } :=
  UMap.find_assign_self _ _ _

/-- The type `PdbReader::readFromModel` leaves under the id the table handed out. -/
theorem pdb_readFromModel_lookup (model : PdbNode) (typeTable : IRTypeTable)
    (maps : IRMaps) :
    (PdbReader.readFromModel model typeTable maps).typeTable.lookup typeTable.nextID
      = some { id := typeTable.nextID, kind := IRTypeKind.StructOrUnion, isUnion := true,
               sizeBytes := 8,
               name := if model.prettyName = "" then "AnonFromPdbNode" else model.prettyName,
               fields := [{ name := "alt0", type := typeTable.nextID }] } :=
  UMap.find_assign_self _ _ _

/-- C21 (amended). When one native model is read with `readFromModel` into two type
tables (with any maps), `EqualIRType` reports the two created types equal if and only if
the two tables handed out the same id, that is, their id counters stood at the same value
before the read: the oracle ignores each type's own id but compares by value the type id
of the self-referencing field. For both formats. -/
theorem EqualIRType_across_tables (dm : DwarfNode) (pm : PdbNode)
    (table1 table2 : IRTypeTable) (maps1 maps2 : IRMaps) :
    (EqualIRType ((DwarfReader.readFromModel dm table1 maps1).typeTable.lookup table1.nextID)
        ((DwarfReader.readFromModel dm table2 maps2).typeTable.lookup table2.nextID) = true
      ↔ table1.nextID = table2.nextID)
    ∧ (EqualIRType ((PdbReader.readFromModel pm table1 maps1).typeTable.lookup table1.nextID)
        ((PdbReader.readFromModel pm table2 maps2).typeTable.lookup table2.nextID) = true
      ↔ table1.nextID = table2.nextID) := by
  rw [dwarf_readFromModel_lookup, dwarf_readFromModel_lookup, pdb_readFromModel_lookup,
    pdb_readFromModel_lookup]
  constructor <;> simp [EqualIRType, CompareVec, CompareVecLoop]

end Dwarf2Pdb
